import Mathlib

/-!
Verification development for the ConfigurableDashboard Salesforce LWC
repository.  The JavaScript sources are shallowly embedded as executable
Lean definitions:

* JS strings are modelled as Lean `String` (the code only manipulates them
  through concatenation, per-character replacement, prefix tests and
  lower-casing, for which the two agree on the data that occurs here);
* JS numbers are modelled as exact rationals `ℚ` (the code performs only
  comparisons, subtraction and decimal formatting);
* JS `Date` arithmetic is modelled with integer millisecond timestamps,
  with the host timezone fixed at UTC offset 0;
* fields that the code treats as nullable are modelled with `Option`;
  JS truthiness of a string is "non-empty", of a number "non-zero".
-/

namespace Dashboard

/-- A JavaScript record-field value as delivered to the components by the
platform's JSON wire (strings, finite numbers, booleans, null).  `Date`
instances cannot occur in such data, so the value model has no
constructor for them. -/
inductive JVal where
  | jnull : JVal
  | jnum : ℚ → JVal
  | jstr : String → JVal
  | jbool : Bool → JVal
  deriving DecidableEq, Repr

namespace JVal

/-- JS truthiness of a value (`Boolean(v)`); `NaN` does not occur because
numbers are modelled as rationals. -/
def jsTruthy : JVal → Bool
  | jnull => false
  | jnum q => q ≠ 0
  | jstr s => s ≠ ""
  | jbool b => b

end JVal

/-- Truthiness of a nullable string (`Boolean(x)` where `x : string | null`). -/
def strTruthy : Option String → Bool
  | none => false
  | some s => s ≠ ""

/-- `x || d` for a nullable string `x` and a string default `d`. -/
def jsOrStr (x : Option String) (d : String) : String :=
  match x with
  | none => d
  | some s => if s = "" then d else s

/-- `x || null` for a nullable string `x`: normalises the falsy empty
string to `null`. -/
def jsOrNull (x : Option String) : Option String :=
  match x with
  | none => none
  | some s => if s = "" then none else some s

/-! ## Query builder (`HM_DataSourceQueryBuilder`, src/unnamed/part_001) -/

namespace QueryBuilder

/-- One entry of `whereConditions` (shape created by `handleAddCondition`,
part_001 lines 1940-1952). -/
structure Condition where
  id : String
  fieldApiName : String
  fieldLabel : String
  fieldType : String
  operator : String
  value : String
  conjunction : String
  deriving DecidableEq, Repr

/-- `OPERATOR_MAP` (part_001 lines 2933-2953) applied to an operator key,
including the `|| "="` fallback of `buildConditionClause`. -/
def operatorMap (op : String) : String :=
  if op = "equals" then "="
  else if op = "not_equals" then "!="
  else if op = "contains" then "LIKE"
  else if op = "starts_with" then "LIKE"
  else if op = "ends_with" then "LIKE"
  else if op = "less_than" then "<"
  else if op = "greater_than" then ">"
  else if op = "less_or_equal" then "<="
  else if op = "greater_or_equal" then ">="
  else if op = "is_null" then "="
  else if op = "is_not_null" then "!="
  else if op = "includes" then "INCLUDES"
  else if op = "excludes" then "EXCLUDES"
  else if op = "date_today" then "="
  else if op = "date_this_week" then "="
  else if op = "date_this_month" then "="
  else if op = "date_this_year" then "="
  else if op = "date_last_n_days" then "="
  else if op = "date_next_n_days" then "="
  else "="

/-- Per-character escaping step: `escapeSoqlValue` (part_001 lines
3466-3472) performs `replace(/\\/g, "\\\\")` followed by
`replace(/'/g, "\\'")`.  Because the first global replacement doubles
every backslash and introduces no quote, and the second prefixes every
quote (all of which come from the input) with a backslash, the
composition acts independently on each input character, which is how it
is rendered here. -/
def escapeChar (c : Char) : List Char :=
  if c = '\\' then ['\\', '\\']
  else if c = '\'' then ['\\', c]
  else [c]

/-- The two chained global replacements of `escapeSoqlValue`, on
character lists. -/
def escapeList : List Char → List Char
  | [] => []
  | c :: cs => escapeChar c ++ escapeList cs

/-- `escapeSoqlValue(value)` for a string value (part_001 lines
3466-3472); the `null`/`undefined` guard is not needed because condition
values are strings in the wizard state. -/
def escapeSoqlValue (value : String) : String :=
  String.mk (escapeList value.data)

/-- The test `/^\d{4}-\d{2}-\d{2}/.test(value)` used by the date-format
fallback of `buildConditionClause` (part_001 line 3195): anchored at the
start, not at the end. -/
def dateFormatPatternTest (value : String) : Bool :=
  match value.data with
  | a :: b :: c :: d :: h1 :: e :: f :: h2 :: g :: h :: _ =>
    a.isDigit && b.isDigit && c.isDigit && d.isDigit && h1 = '-' &&
    e.isDigit && f.isDigit && h2 = '-' && g.isDigit && h.isDigit
  | _ => false

/-- `buildConditionClause(condition)` (part_001 lines 3098-3203). -/
def buildConditionClause (c : Condition) : String :=
  if c.operator = "is_null" then c.fieldApiName ++ " = null"
  else if c.operator = "is_not_null" then c.fieldApiName ++ " != null"
  else if c.operator = "date_today" then c.fieldApiName ++ " = TODAY"
  else if c.operator = "date_this_week" then c.fieldApiName ++ " = THIS_WEEK"
  else if c.operator = "date_this_month" then c.fieldApiName ++ " = THIS_MONTH"
  else if c.operator = "date_this_year" then c.fieldApiName ++ " = THIS_YEAR"
  else if c.operator = "date_last_n_days" then
    c.fieldApiName ++ " = LAST_N_DAYS:" ++ c.value
  else if c.operator = "date_next_n_days" then
    c.fieldApiName ++ " = NEXT_N_DAYS:" ++ c.value
  else if c.operator = "date_gt_today" then c.fieldApiName ++ " > TODAY"
  else if c.operator = "date_lt_today" then c.fieldApiName ++ " < TODAY"
  else if c.operator = "date_gt_last_n_days" then
    c.fieldApiName ++ " > LAST_N_DAYS:" ++ c.value
  else if c.operator = "date_lt_next_n_days" then
    c.fieldApiName ++ " < NEXT_N_DAYS:" ++ c.value
  else if c.operator = "contains" then
    c.fieldApiName ++ " LIKE '%" ++ escapeSoqlValue c.value ++ "%'"
  else if c.operator = "starts_with" then
    c.fieldApiName ++ " LIKE '" ++ escapeSoqlValue c.value ++ "%'"
  else if c.operator = "ends_with" then
    c.fieldApiName ++ " LIKE '%" ++ escapeSoqlValue c.value ++ "'"
  else if c.value = "{!UserId}" then
    c.fieldApiName ++ " " ++ operatorMap c.operator ++ " :UserInfo.getUserId()"
  else if c.fieldType = "BOOLEAN" then
    c.fieldApiName ++ " " ++ operatorMap c.operator ++ " " ++ c.value
  else if c.fieldType = "INTEGER" ∨ c.fieldType = "DOUBLE" ∨
          c.fieldType = "CURRENCY" ∨ c.fieldType = "PERCENT" then
    c.fieldApiName ++ " " ++ operatorMap c.operator ++ " " ++ c.value
  else if c.fieldType = "DATE" ∨ c.fieldType = "DATETIME" then
    -- both arms of the `isValidDateFormat` check return the same string
    c.fieldApiName ++ " " ++ operatorMap c.operator ++ " " ++ c.value
  else if c.operator = "includes" ∨ c.operator = "excludes" then
    c.fieldApiName ++ " " ++ operatorMap c.operator ++ " ('" ++
      escapeSoqlValue c.value ++ "')"
  else if c.value ≠ "" ∧ dateFormatPatternTest c.value then
    c.fieldApiName ++ " " ++ operatorMap c.operator ++ " " ++ c.value
  else
    c.fieldApiName ++ " " ++ operatorMap c.operator ++ " '" ++
      escapeSoqlValue c.value ++ "'"

/-- A condition is kept by `buildWhereClause`'s validity filter when its
field and operator are set (truthy). -/
def isValidCondition (c : Condition) : Bool :=
  c.fieldApiName ≠ "" && c.operator ≠ ""

/-- The mixed-conjunction loop of `buildWhereClause` (part_001 lines
3053-3088) over the conditions after the first, carrying the `inOrGroup`
flag; the final unconditional close of an open group (lines 3086-3088) is
folded into the empty-list case. -/
def mixedRest : Bool → List Condition → String
  | inOr, [] => if inOr then ")" else ""
  | inOr, c :: rs =>
    let clause := buildConditionClause c
    let nextIsOr : Bool := match rs with
      | n :: _ => n.conjunction == "OR"
      | [] => false
    if c.conjunction = "OR" then
      if inOr then
        if nextIsOr then "\n         OR " ++ clause ++ mixedRest true rs
        else "\n         OR " ++ clause ++ ")" ++ mixedRest false rs
      else
        if nextIsOr then "\n    AND (" ++ clause ++ mixedRest true rs
        else "\n    AND (" ++ clause ++ ")" ++ mixedRest false rs
    else
      "\n    AND " ++ clause ++ mixedRest inOr rs

/-- `buildWhereClause()` (part_001 lines 3025-3091) as a function of the
condition list. -/
def buildWhereClauseOf (whereConditions : List Condition) : String :=
  let validConditions := whereConditions.filter (fun c => isValidCondition c)
  match validConditions with
  | [] => ""
  | c0 :: rest =>
    let hasOr := rest.any (fun c => c.conjunction = "OR")
    let hasAnd := rest.any (fun c => c.conjunction = "AND")
    if hasOr && hasAnd then
      buildConditionClause c0 ++ mixedRest false rest
    else
      buildConditionClause c0 ++
        String.join (rest.map (fun c =>
          "\n    " ++ c.conjunction ++ " " ++ buildConditionClause c))

/-- The wizard state read by the SOQL generation and (de)serialisation
code (`page2Data`, `queryType`, aggregate state, field selection, filter
state and query limit; part_001 lines 942-990).  `queryLimit` is an
integer or `null` (`handleQueryLimitChange`, line 1778). -/
structure BuilderState where
  selectedObjectApiName : Option String
  selectedObjectLabel : Option String
  objectSearchTerm : String
  queryType : String
  aggregateFunction : Option String
  aggregateFieldApiName : Option String
  aggregateFieldSearchTerm : String
  selectedFieldApiNames : List String
  whereConditions : List Condition
  conditionIdCounter : Nat
  activeOwnerFilter : Option String
  queryLimit : Option Int
  deriving DecidableEq, Repr

/-- `get isListMode()` (part_001 line 2604). -/
def isListMode (s : BuilderState) : Bool := s.queryType = "List"

/-- `get isAggregateMode()` (part_001 line 2612). -/
def isAggregateMode (s : BuilderState) : Bool := s.queryType = "Aggregate"

/-- `buildWhereClause()` reading the component state. -/
def buildWhereClause (s : BuilderState) : String :=
  buildWhereClauseOf s.whereConditions

/-- The conditional `\n WHERE …` append of `generatedSoql`
(`if (whereClause) query += …`): appending the empty suffix models the
skipped append. -/
def whereSuffix (s : BuilderState) : String :=
  if buildWhereClause s ≠ "" then "\n WHERE " ++ buildWhereClause s else ""

/-- The conditional `\n LIMIT …` append of the List branch of
`generatedSoql` (`if (this.queryLimit) query += …`). -/
def limitSuffix (s : BuilderState) : String :=
  match s.queryLimit with
  | some n => if n ≠ 0 then "\n LIMIT " ++ toString n else ""
  | none => ""

/-- `get generatedSoql()` (part_001 lines 2959-3019).  The `query +=`
chains are rendered as appended (possibly empty) suffixes, which yields
the same string. -/
def generatedSoql (s : BuilderState) : String :=
  if ¬ strTruthy s.selectedObjectApiName then ""
  else if isListMode s then
    if s.selectedFieldApiNames.length = 0 then ""
    else
      "SELECT " ++ String.intercalate ",\n       " s.selectedFieldApiNames ++
        "\n  FROM " ++ jsOrStr s.selectedObjectApiName "" ++ whereSuffix s ++ limitSuffix s
  else if isAggregateMode s then
    if ¬ strTruthy s.aggregateFunction then ""
    else if jsOrStr s.aggregateFunction "" = "COUNT" ∧ ¬ strTruthy s.aggregateFieldApiName then
      "SELECT " ++ "COUNT()" ++ "\n  FROM " ++ jsOrStr s.selectedObjectApiName "" ++
        whereSuffix s
    else if ¬ strTruthy s.aggregateFieldApiName then ""
    else
      "SELECT " ++
        (jsOrStr s.aggregateFunction "" ++ "(" ++ jsOrStr s.aggregateFieldApiName "" ++ ")") ++
        "\n  FROM " ++ jsOrStr s.selectedObjectApiName "" ++ whereSuffix s
  else ""

/-- `isValidDateFormat(value)` (part_001 lines 3481-3502).  The
case-insensitive literal alternation is modelled by upper-casing the
trimmed value; `LAST_N_DAYS:\d+` / `NEXT_N_DAYS:\d+` require at least one
digit after the colon. -/
def isValidDateFormat (value : String) : Bool :=
  if value = "" then false
  else
    let trimmed := value.trim
    let up := trimmed.toUpper
    let plainLiterals : List String :=
      ["TODAY", "YESTERDAY", "TOMORROW", "LAST_WEEK", "THIS_WEEK", "NEXT_WEEK",
       "LAST_MONTH", "THIS_MONTH", "NEXT_MONTH", "LAST_90_DAYS", "NEXT_90_DAYS",
       "THIS_QUARTER", "LAST_QUARTER", "NEXT_QUARTER", "THIS_YEAR", "LAST_YEAR",
       "NEXT_YEAR", "THIS_FISCAL_QUARTER", "LAST_FISCAL_QUARTER",
       "NEXT_FISCAL_QUARTER", "THIS_FISCAL_YEAR", "LAST_FISCAL_YEAR",
       "NEXT_FISCAL_YEAR"]
    let nDays :=
      (up.startsWith "LAST_N_DAYS:" && (up.drop 12).length > 0 &&
        (up.drop 12).data.all Char.isDigit) ||
      (up.startsWith "NEXT_N_DAYS:" && (up.drop 12).length > 0 &&
        (up.drop 12).data.all Char.isDigit)
    if plainLiterals.contains up || nDays then true
    else if datePattern trimmed then true
    else datetimePattern trimmed
where
  /-- `/^\d{4}-\d{2}-\d{2}$/` -/
  datePattern (s : String) : Bool :=
    match s.data with
    | [a, b, c, d, h1, e, f, h2, g, h] =>
      a.isDigit && b.isDigit && c.isDigit && d.isDigit && h1 = '-' &&
      e.isDigit && f.isDigit && h2 = '-' && g.isDigit && h.isDigit
    | _ => false
  /-- `/^\d{4}-\d{2}-\d{2}T\d{2}:\d{2}:\d{2}(\.\d{3})?Z?$/` -/
  datetimePattern (s : String) : Bool :=
    match s.data with
    | a :: b :: c :: d :: h1 :: e :: f :: h2 :: g :: h :: t :: hh1 :: hh2 :: c1 ::
        mm1 :: mm2 :: c2 :: ss1 :: ss2 :: rest =>
      a.isDigit && b.isDigit && c.isDigit && d.isDigit && h1 = '-' &&
      e.isDigit && f.isDigit && h2 = '-' && g.isDigit && h.isDigit &&
      t = 'T' && hh1.isDigit && hh2.isDigit && c1 = ':' &&
      mm1.isDigit && mm2.isDigit && c2 = ':' && ss1.isDigit && ss2.isDigit &&
      (match rest with
       | [] => true
       | ['Z'] => true
       | [dot, m1, m2, m3] => dot = '.' && m1.isDigit && m2.isDigit && m3.isDigit
       | [dot, m1, m2, m3, z] =>
         dot = '.' && m1.isDigit && m2.isDigit && m3.isDigit && z = 'Z'
       | _ => false)
    | _ => false

end QueryBuilder

/-! ## JS number and date modelling shared by the list component -/

/-- Digits of a numeral to a natural number. -/
def natOfDigits (cs : List Char) : Nat :=
  cs.foldl (fun a c => a * 10 + (c.toNat - 48)) 0

/-- `String.prototype.split` on a single-character separator, on the
character list. -/
def splitCharList (c : Char) : List Char → List (List Char)
  | [] => [[]]
  | x :: xs =>
    if x = c then [] :: splitCharList c xs
    else
      match splitCharList c xs with
      | [] => [[x]]
      | g :: gs => (x :: g) :: gs

/-- `s.split(c)` for a one-character separator `c`. -/
def splitOnChar (s : String) (c : Char) : List String :=
  (splitCharList c s.data).map String.mk

/-- `Number(s)` for a string, modelled for optional-sign decimal literals
(the forms record data and user input take here); `none` models `NaN`;
the empty (trimmed) string converts to `0` as in JS. -/
def jsNumberOfString (s : String) : Option ℚ :=
  let t := s.trim
  if t = "" then some 0
  else if t.startsWith "-" then (parseUnsigned (t.drop 1)).map Neg.neg
  else if t.startsWith "+" then parseUnsigned (t.drop 1)
  else parseUnsigned t
where
  parseUnsigned (u : String) : Option ℚ :=
    match splitOnChar u '.' with
    | [i] =>
      if i ≠ "" ∧ i.data.all Char.isDigit then some (natOfDigits i.data) else none
    | [i, f] =>
      if (i ≠ "" ∨ f ≠ "") ∧ i.data.all Char.isDigit ∧ f.data.all Char.isDigit then
        some ((natOfDigits i.data : ℚ) + (natOfDigits f.data : ℚ) / (10 : ℚ) ^ f.length)
      else none
    | _ => none

/-- `Number(v)`; `none` models `NaN`. -/
def toNumber : JVal → Option ℚ
  | JVal.jnull => some 0
  | JVal.jbool b => some (if b then 1 else 0)
  | JVal.jnum q => some q
  | JVal.jstr s => jsNumberOfString s

/-- `(Number(v) || 0)`: `NaN` (and `0` itself) collapse to `0`. -/
def numOr0 (v : JVal) : ℚ := (toNumber v).getD 0

/-- JS `ToIntegerOrInfinity` truncation of a finite number. -/
def jsTrunc (q : ℚ) : Int := if q < 0 then -Int.floor (-q) else Int.floor q

/-- Days from the Unix epoch of a civil date (proleptic Gregorian);
the standard era-based conversion, used to model JS `Date` millisecond
values.  The host timezone is modelled as UTC offset 0. -/
def daysFromCivil (y m d : Int) : Int :=
  let y' := if m ≤ 2 then y - 1 else y
  let era := y'.fdiv 400
  let yoe := y' - era * 400
  let mp := (m + 9) % 12
  let doy := (153 * mp + 2) / 5 + d - 1
  let doe := yoe * 365 + yoe / 4 - yoe / 100 + doy
  era * 146097 + doe - 719468

/-- Number of days in a month (for `Date` ISO-string validation). -/
def daysInMonth (y m : Int) : Int :=
  if m = 2 then
    if y % 4 = 0 ∧ (y % 100 ≠ 0 ∨ y % 400 = 0) then 29 else 28
  else if m = 4 ∨ m = 6 ∨ m = 9 ∨ m = 11 then 30
  else 31

/-- `new Date(s).getTime()` for ISO strings `YYYY-MM-DD`,
`YYYY-MM-DDThh:mm[:ss[.sss]][Z]`; other (engine-specific) formats are
modelled as unparseable (`none` = invalid date / `NaN`). -/
def parseDateMs (s : String) : Option Int :=
  match splitOnChar s 'T' with
  | [d] => (parseYMD d).map (fun days => days * 86400000)
  | [d, t] =>
    match parseYMD d, parseHMS t with
    | some days, some ms => some (days * 86400000 + ms)
    | _, _ => none
  | _ => none
where
  parseYMD (d : String) : Option Int :=
    match splitOnChar d '-' with
    | [ys, ms, ds] =>
      if ys.length = 4 ∧ ms.length = 2 ∧ ds.length = 2 ∧
         ys.data.all Char.isDigit ∧ ms.data.all Char.isDigit ∧ ds.data.all Char.isDigit then
        let y : Int := natOfDigits ys.data
        let m : Int := natOfDigits ms.data
        let dd : Int := natOfDigits ds.data
        if 1 ≤ m ∧ m ≤ 12 ∧ 1 ≤ dd ∧ dd ≤ daysInMonth y m then
          some (daysFromCivil y m dd)
        else none
      else none
    | _ => none
  twoDigits (x : String) (bound : Nat) : Option Nat :=
    if x.length = 2 ∧ x.data.all Char.isDigit ∧ natOfDigits x.data < bound then
      some (natOfDigits x.data)
    else none
  parseSecondsMs (x : String) : Option Nat :=
    match splitOnChar x '.' with
    | [ss] => (twoDigits ss 60).map (· * 1000)
    | [ss, sss] =>
      if sss.length = 3 ∧ sss.data.all Char.isDigit then
        (twoDigits ss 60).map (fun n => n * 1000 + natOfDigits sss.data)
      else none
    | _ => none
  parseHMS (t : String) : Option Int :=
    let t := if t.endsWith "Z" then t.dropRight 1 else t
    match splitOnChar t ':' with
    | [hh, mm] =>
      match twoDigits hh 24, twoDigits mm 60 with
      | some h, some m => some ((h * 3600 + m * 60 : Nat) * 1000)
      | _, _ => none
    | [hh, mm, rest] =>
      match twoDigits hh 24, twoDigits mm 60, parseSecondsMs rest with
      | some h, some m, some sms => some (((h * 3600 + m * 60) * 1000 + sms : Nat))
      | _, _, _ => none
    | _ => none

/-- `new Date(v).getTime()` for a record value (used when sorting Date
columns, part_000 lines 2069-2071); `none` models `NaN`. -/
def dateMs : JVal → Option Int
  | JVal.jnull => some 0
  | JVal.jbool b => some (if b then 1 else 0)
  | JVal.jnum q => some (jsTrunc q)
  | JVal.jstr s => parseDateMs s

/-- `String(v)`.  Number rendering is exact for the integral values this
development applies it to. -/
def jsToString : JVal → String
  | JVal.jnull => "null"
  | JVal.jbool b => if b then "true" else "false"
  | JVal.jstr s => s
  | JVal.jnum q => if q.den = 1 then toString q.num else toString q.num ++ "/" ++ toString q.den

/-- Left-pad a numeral with zeros to `f` digits. -/
def padZeros (s : String) (f : Nat) : String :=
  String.mk (List.replicate (f - s.length) '0') ++ s

/-- `x.toFixed(f)` for non-negative `x` over exact rationals: the nearest
`n / 10^f`, ties toward the larger `n` (ECMAScript `Number.prototype.toFixed`). -/
def toFixedPos (q : ℚ) (f : Nat) : String :=
  let n : Int := Int.floor (q * (10 : ℚ) ^ f + 1 / 2)
  let base : Int := (10 : Int) ^ f
  if f = 0 then toString n
  else toString (n / base) ++ "." ++ padZeros (toString (n % base)) f

/-- `x.toFixed(f)`: the sign is extracted first (so `(-0.2).toFixed(0)`
is `"-0"`, as in JS). -/
def toFixed (q : ℚ) (f : Nat) : String :=
  if q < 0 then "-" ++ toFixedPos (-q) f else toFixedPos q f

/-! ## Configurable list (`HM_ConfigurableList`, src/unnamed/part_000) -/

namespace ConfigurableList

/-- A table cell: `key` is the detail-map id, `rawValue` the unformatted
record value used for sorting. -/
structure Cell where
  key : String
  rawValue : JVal
  deriving DecidableEq, Repr

/-- A column definition (only the parts the embedded operations read). -/
structure Column where
  key : String
  formatType : String
  deriving DecidableEq, Repr

/-- A data row.  The `visibleCells` array that `applyFilter` recomputes
for the template is presentation-only — it never feeds back into
filtering, sorting, or pagination — and is therefore not part of the
model. -/
structure Row where
  objectType : String
  cells : List Cell
  deriving DecidableEq, Repr

/-- `formatCurrency(value)` (part_000 lines 1498-1504). -/
def formatCurrency (value : JVal) : String :=
  match toNumber value with
  | none => jsToString value
  | some num =>
    if num ≥ 1000000 then "$" ++ toFixed (num / 1000000) 1 ++ "M"
    else if num ≥ 1000 then "$" ++ toFixed (num / 1000) 0 ++ "K"
    else "$" ++ toFixed num 0

/-- `getCellValue(row, columnKey)` (part_000 lines 2024-2031): the raw
value of the matching cell, or `null`. -/
def getCellValue (row : Row) (columnKey : String) : JVal :=
  match row.cells.find? (fun c => c.key == columnKey) with
  | none => JVal.jnull
  | some cell => cell.rawValue

/-- `a.toLowerCase().localeCompare(b.toLowerCase())` mapped to a
comparator result.  The default-locale collation agrees with code-point
order on the ASCII data handled here; V8 returns -1/0/1. -/
def localeCmpQ (a b : String) : ℚ :=
  match compare a b with
  | Ordering.lt => -1
  | Ordering.eq => 0
  | Ordering.gt => 1

/-- `String(v || "").toLowerCase()`, the key the default (Text) branch
of `compareCellValues` compares with `localeCompare`. -/
def textKey (v : JVal) : String :=
  (jsToString (if v.jsTruthy then v else JVal.jstr "")).toLower

/-- The `switch (formatType)` of `compareCellValues` (part_000 lines
2063-2081) computing `comparison` for two non-null values.  An `NaN`
comparator result (unparseable Date values) is coerced to `+0`, as
ECMAScript `SortCompare` does. -/
def cellComparison (aValue bValue : JVal) (formatType : String) : ℚ :=
  if formatType = "Currency" then numOr0 aValue - numOr0 bValue
  else if formatType = "Number" then numOr0 aValue - numOr0 bValue
  else if formatType = "Date" then
    match dateMs aValue, dateMs bValue with
    | some x, some y => ((x - y : Int) : ℚ)
    | _, _ => 0
  else if formatType = "Percent" then numOr0 aValue - numOr0 bValue
  else localeCmpQ (textKey aValue) (textKey bValue)

/-- `compareCellValues(aValue, bValue, formatType, direction)` (part_000
lines 2052-2084): nulls are sent to the end before the direction flip is
applied. -/
def compareCellValues (aValue bValue : JVal) (formatType direction : String) : ℚ :=
  if aValue = JVal.jnull then 1
  else if bValue = JVal.jnull then -1
  else if direction = "asc" then cellComparison aValue bValue formatType
  else -(cellComparison aValue bValue formatType)

/-- Stable insertion of `x` into an already-processed list under a JS
comparator: `x` moves past every `y` with `cmp x y > 0`. -/
def jsInsert (cmp : α → α → ℚ) (x : α) : List α → List α
  | [] => [x]
  | y :: ys => if cmp x y > 0 then y :: jsInsert cmp x ys else x :: y :: ys

/-- `Array.prototype.sort(cmp)` modelled as a stable insertion sort:
ES2019 sort is stable and, for a consistent comparator, fully specified,
and every stable comparator sort computes the same list.  Like the
`[...rows]` copy in `sortRows`, it leaves its input unchanged. -/
def jsSort (cmp : α → α → ℚ) : List α → List α
  | [] => []
  | x :: xs => jsInsert cmp x (jsSort cmp xs)

/-- `sortRows(rows, columnKey, direction, formatType)` (part_000 lines
2036-2042). -/
def sortRows (rows : List Row) (columnKey direction formatType : String) : List Row :=
  jsSort (fun a b =>
    compareCellValues (getCellValue a columnKey) (getCellValue b columnKey)
      formatType direction) rows

/-- The list component state read and written by the filter, sort and
pagination operations (part_000 lines 913-932). -/
structure ListState where
  rows : List Row
  filteredRows : List Row
  activeFilter : Option String
  columns : List Column
  currentPage : Nat
  recordsPerPage : Nat
  enablePagination : Bool
  totalPages : Nat
  sortColumn : Option String
  sortDirection : String
  enableColumnSorting : Bool
  deriving DecidableEq, Repr

/-- `Math.ceil(a / b)` for naturals, `b > 0`. -/
def ceilDivNat (a b : Nat) : Nat := (a + b - 1) / b

/-- `updatePagination()` (part_000 lines 1767-1780). -/
def updatePagination (s : ListState) : ListState :=
  if ¬ s.enablePagination then { s with totalPages := 1 }
  else
    { s with
      totalPages := max 1 (ceilDivNat s.filteredRows.length s.recordsPerPage)
      currentPage :=
        if s.currentPage > max 1 (ceilDivNat s.filteredRows.length s.recordsPerPage) then
          max 1 (ceilDivNat s.filteredRows.length s.recordsPerPage)
        else s.currentPage }

/-- The filtering step of `applyFilter` (part_000 lines 1698-1705). -/
def baseFilteredRows (s : ListState) : List Row :=
  match s.activeFilter with
  | some f => if f ≠ "" ∧ f ≠ "all" then s.rows.filter (fun r => r.objectType == f) else s.rows
  | none => s.rows

/-- The sorting step of `applyFilter` (part_000 lines 1716-1729): when
column sorting is enabled and a sort column with a matching column
definition is selected, the entire `filteredRows` array is replaced by
its sorted copy. -/
def sortStep (s : ListState) : ListState :=
  if s.enableColumnSorting ∧ strTruthy s.sortColumn then
    match s.columns.find? (fun col => col.key == jsOrStr s.sortColumn "") with
    | some column =>
      { s with filteredRows :=
          (sortRows s.filteredRows (jsOrStr s.sortColumn "") s.sortDirection
            column.formatType) }
    | none => s
  else s

/-- `applyFilter()` (part_000 lines 1696-1743): filter, sort the full
filtered dataset, reset to page 1, update pagination.  The `visibleCells`
and filter-button class refreshes are presentation-only. -/
def applyFilter (s : ListState) : ListState :=
  updatePagination { sortStep { s with filteredRows := baseFilteredRows s } with
    currentPage := 1 }

/-- `get paginatedRows()` (part_000 lines 1785-1796). -/
def paginatedRows (s : ListState) : List Row :=
  if ¬ s.enablePagination then s.filteredRows
  else ((s.filteredRows.drop ((s.currentPage - 1) * s.recordsPerPage)).take s.recordsPerPage)

/-- `handlePageChange(event)` (part_000 lines 1933-1941) with the parsed
page number as input; the guard `page && page >= 1 && ...` collapses to
the range check for integers. -/
def handlePageChange (page : Int) (s : ListState) : ListState :=
  if 1 ≤ page ∧ page ≤ (s.totalPages : Int) then { s with currentPage := page.toNat } else s

/-- `handleNextPage()` (part_000 lines 1958-1963). -/
def handleNextPage (s : ListState) : ListState :=
  if s.currentPage < s.totalPages then { s with currentPage := s.currentPage + 1 } else s

/-- `handlePreviousPage()` (part_000 lines 1947-1952). -/
def handlePreviousPage (s : ListState) : ListState :=
  if s.currentPage > 1 then { s with currentPage := s.currentPage - 1 } else s

/-- A rendered badge (part_000 lines 1228-1233). -/
structure Badge where
  text : String
  variant : String
  icon : String
  className : String
  deriving DecidableEq, Repr

/-- The base-variant extraction from a configured override
(`/^(Success|Warning|Error)/i` then lower-casing, part_000 lines
1200-1210). -/
def extractBaseVariant (ov : String) : String :=
  if ov.toLower.startsWith "success" then "success"
  else if ov.toLower.startsWith "warning" then "warning"
  else if ov.toLower.startsWith "error" then "error"
  else ov.toLower

/-- The string-parsing branch of `calculateDaysBadge` (part_000 lines
1164-1174): `new Date(dateValue)`, falling back for
`/^\d{4}-\d{2}-\d{2}/`-prefixed values to the first ten characters with
`"T00:00:00"` appended. -/
def jsDateOfString (s : String) : Option Int :=
  match parseDateMs s with
  | some t => some t
  | none =>
    if QueryBuilder.dateFormatPatternTest s then
      parseDateMs ((s.take 10) ++ "T00:00:00")
    else none

/-- The date-resolution step of `calculateDaysBadge` (part_000 lines
1160-1185): strings are parsed (with the ISO-prefix fallback), numbers
are timestamps, other types yield no date (the `instanceof Date` branch
cannot fire on wire data). -/
def badgeDateValue : JVal → Option Int
  | JVal.jstr s => jsDateOfString s
  | JVal.jnum q => some (jsTrunc q)
  | _ => none

/-- The `diffDays` computation of `calculateDaysBadge` (part_000 lines
1187-1194): both dates are truncated to local midnight
(`setHours(0,0,0,0)`, UTC in this model) and the difference is
floor-divided by a day of milliseconds. -/
def dayDiff (nowMs t : Int) : Int :=
  ((86400000 * (t.fdiv 86400000)) - (86400000 * (nowMs.fdiv 86400000))).fdiv 86400000

/-- The `baseVariant` computation of `calculateDaysBadge` (part_000
lines 1200-1210). -/
def badgeBaseVariant (overrideVariant : Option String) : Option String :=
  match overrideVariant with
  | some ov => if ov ≠ "" ∧ ov ≠ "Auto" then some (extractBaseVariant ov) else none
  | none => none

/-- The badge record constructor of `calculateDaysBadge` (part_000 lines
1228-1233). -/
def mkBadge (text variant icon : String) : Badge :=
  { text := text, variant := variant, icon := icon,
    className := "cc-custom-badge cc-badge-" ++ variant }

/-- `calculateDaysBadge(dateValue, overrideVariant)` (part_000 lines
1154-1238); `nowMs` makes the `new Date()` call explicit, and the
initial `if (!dateValue) return null` is the truthiness guard. -/
def calculateDaysBadge (nowMs : Int) (dateValue : JVal) (overrideVariant : Option String) :
    Option Badge :=
  if ¬ dateValue.jsTruthy then none
  else
    match badgeDateValue dateValue with
    | none => none
    | some t =>
      if 0 < dayDiff nowMs t then
        some (mkBadge (toString (dayDiff nowMs t) ++ "d Left")
          (jsOrStr (badgeBaseVariant overrideVariant)
            (if dayDiff nowMs t ≤ 3 then "warning" else "success"))
          "utility:clock")
      else if dayDiff nowMs t < 0 then
        some (mkBadge (toString (-(dayDiff nowMs t)) ++ "d Over")
          (jsOrStr (badgeBaseVariant overrideVariant) "error") "utility:warning")
      else
        some (mkBadge "Today" (jsOrStr (badgeBaseVariant overrideVariant) "warning")
          "utility:clock")

end ConfigurableList

/-! ## Component group layout (`hmConfigurableComponentGroup.js`) -/

namespace ComponentGroup

/-- The group configuration fields read by the layout getters. -/
structure GroupConfig where
  layoutType : Option String
  componentsPerRow : Option Int
  deriving DecidableEq, Repr

/-- `get layoutClass()` (hmConfigurableComponentGroup.js lines 95-112). -/
def layoutClass (groupConfig : Option GroupConfig) : String :=
  match groupConfig with
  | none => "hm-group-layout-horizontal"
  | some cfg =>
    let layoutType := jsOrStr cfg.layoutType "Horizontal"
    let lower := layoutType.toLower
    if lower = "vertical" then "hm-group-layout-vertical"
    else if lower = "grid" then "hm-group-layout-grid"
    else "hm-group-layout-horizontal"

/-- `get componentsPerRow()` (lines 83-88): `null` unless the
configuration is present and its `componentsPerRow` is non-null. -/
def componentsPerRow (groupConfig : Option GroupConfig) : Option Int :=
  match groupConfig with
  | none => none
  | some cfg => cfg.componentsPerRow

/-- `get layoutStyle()` (lines 118-123): the custom-property string when
`componentsPerRow` is truthy (non-null and non-zero), else empty. -/
def layoutStyle (groupConfig : Option GroupConfig) : String :=
  match componentsPerRow groupConfig with
  | some n => if n ≠ 0 then "--components-per-row: " ++ toString n ++ ";" else ""
  | none => ""

end ComponentGroup

/-! ## Query configuration (de)serialisation (part_001 lines 3343-3416) -/

namespace QueryBuilder

/-- The object literal passed to `JSON.stringify` by
`serializeQueryConfig` (part_001 lines 3344-3363).  `JSON.stringify`
followed by `JSON.parse` round-trips these values (strings, integers,
`null`, arrays of plain records) exactly, so the JSON text layer is
modelled as the identity on this record. -/
structure QueryConfig where
  objectApiName : Option String
  objectLabel : Option String
  queryType : String
  selectedFields : List String
  aggregateFunction : Option String
  aggregateFieldApiName : Option String
  aggregateFieldSearchTerm : String
  whereConditions : List Condition
  activeOwnerFilter : Option String
  queryLimit : Option Int
  deriving DecidableEq, Repr

/-- `serializeQueryConfig()` (part_001 lines 3343-3364). -/
def serializeQueryConfig (s : BuilderState) : QueryConfig :=
  { objectApiName := s.selectedObjectApiName
    objectLabel := s.selectedObjectLabel
    queryType := s.queryType
    selectedFields := s.selectedFieldApiNames
    aggregateFunction := s.aggregateFunction
    aggregateFieldApiName := s.aggregateFieldApiName
    aggregateFieldSearchTerm := s.aggregateFieldSearchTerm
    whereConditions := s.whereConditions.map (fun c =>
      { id := c.id, fieldApiName := c.fieldApiName, fieldLabel := c.fieldLabel,
        fieldType := c.fieldType, operator := c.operator, value := c.value,
        conjunction := c.conjunction })
    activeOwnerFilter := s.activeOwnerFilter
    queryLimit := s.queryLimit }

/-- The condition restoration of `deserializeQueryConfig` (part_001 lines
3402-3405): spread the stored condition, defaulting a falsy `id` from the
incremented counter. -/
def restoreConditions (counter : Nat) : List Condition → Nat × List Condition
  | [] => (counter, [])
  | c :: cs =>
    if c.id = "" then
      let (counter', rest) := restoreConditions (counter + 1) cs
      (counter', { c with id := "cond_" ++ toString (counter + 1) } :: rest)
    else
      let (counter', rest) := restoreConditions counter cs
      (counter', c :: rest)

/-- `deserializeQueryConfig(configJson)` (part_001 lines 3370-3416) on a
successfully parsed configuration.  The intervening
`loadFieldsForObject` call resets `selectedFieldApiNames`, which the
code restores afterwards from `config.selectedFields`; the field-metadata
caches it fills are not part of this state model, and the final
`updateSoqlPreview` only refreshes a derived preview. -/
def deserializeQueryConfig (cfg : QueryConfig) (s : BuilderState) : BuilderState :=
  let r := restoreConditions s.conditionIdCounter cfg.whereConditions
  { s with
    selectedObjectApiName := jsOrNull cfg.objectApiName
    selectedObjectLabel := jsOrNull cfg.objectLabel
    objectSearchTerm := jsOrStr cfg.objectLabel ""
    queryType := if cfg.queryType = "" then "List" else cfg.queryType
    aggregateFunction := jsOrNull cfg.aggregateFunction
    aggregateFieldApiName := jsOrNull cfg.aggregateFieldApiName
    aggregateFieldSearchTerm := jsOrStr (some cfg.aggregateFieldSearchTerm) ""
    selectedFieldApiNames := cfg.selectedFields
    whereConditions := r.2
    conditionIdCounter := r.1
    activeOwnerFilter := jsOrNull cfg.activeOwnerFilter
    queryLimit :=
      match cfg.queryLimit with
      | some n => if n = 0 then none else some n
      | none => none }

end QueryBuilder

/-! ## State-threaded embedding of the SOQL formatting methods

The methods below are re-embedded in explicit state-passing style: every
method call receives the component state and returns it alongside its
result, mirroring the JS call structure (`this` threading).  None of the
method bodies contains an assignment to `this`, which is what the
returned states make checkable. -/

namespace QueryBuilder

/-- `escapeSoqlValue` with the component state threaded through (the
method reads no state). -/
def escapeSoqlValueRun (s : BuilderState) (value : String) : String × BuilderState :=
  (escapeSoqlValue value, s)

/-- `isValidDateFormat` with the component state threaded through (the
method reads no state). -/
def isValidDateFormatRun (s : BuilderState) (value : String) : Bool × BuilderState :=
  (isValidDateFormat value, s)

/-- `buildConditionClause` with the component state threaded through its
`escapeSoqlValue` calls. -/
def buildConditionClauseRun (s : BuilderState) (c : Condition) : String × BuilderState :=
  if c.operator = "is_null" then (c.fieldApiName ++ " = null", s)
  else if c.operator = "is_not_null" then (c.fieldApiName ++ " != null", s)
  else if c.operator = "date_today" then (c.fieldApiName ++ " = TODAY", s)
  else if c.operator = "date_this_week" then (c.fieldApiName ++ " = THIS_WEEK", s)
  else if c.operator = "date_this_month" then (c.fieldApiName ++ " = THIS_MONTH", s)
  else if c.operator = "date_this_year" then (c.fieldApiName ++ " = THIS_YEAR", s)
  else if c.operator = "date_last_n_days" then
    (c.fieldApiName ++ " = LAST_N_DAYS:" ++ c.value, s)
  else if c.operator = "date_next_n_days" then
    (c.fieldApiName ++ " = NEXT_N_DAYS:" ++ c.value, s)
  else if c.operator = "date_gt_today" then (c.fieldApiName ++ " > TODAY", s)
  else if c.operator = "date_lt_today" then (c.fieldApiName ++ " < TODAY", s)
  else if c.operator = "date_gt_last_n_days" then
    (c.fieldApiName ++ " > LAST_N_DAYS:" ++ c.value, s)
  else if c.operator = "date_lt_next_n_days" then
    (c.fieldApiName ++ " < NEXT_N_DAYS:" ++ c.value, s)
  else if c.operator = "contains" then
    (c.fieldApiName ++ " LIKE '%" ++ (escapeSoqlValueRun s c.value).1 ++ "%'",
      (escapeSoqlValueRun s c.value).2)
  else if c.operator = "starts_with" then
    (c.fieldApiName ++ " LIKE '" ++ (escapeSoqlValueRun s c.value).1 ++ "%'",
      (escapeSoqlValueRun s c.value).2)
  else if c.operator = "ends_with" then
    (c.fieldApiName ++ " LIKE '%" ++ (escapeSoqlValueRun s c.value).1 ++ "'",
      (escapeSoqlValueRun s c.value).2)
  else if c.value = "{!UserId}" then
    (c.fieldApiName ++ " " ++ operatorMap c.operator ++ " :UserInfo.getUserId()", s)
  else if c.fieldType = "BOOLEAN" then
    (c.fieldApiName ++ " " ++ operatorMap c.operator ++ " " ++ c.value, s)
  else if c.fieldType = "INTEGER" ∨ c.fieldType = "DOUBLE" ∨
          c.fieldType = "CURRENCY" ∨ c.fieldType = "PERCENT" then
    (c.fieldApiName ++ " " ++ operatorMap c.operator ++ " " ++ c.value, s)
  else if c.fieldType = "DATE" ∨ c.fieldType = "DATETIME" then
    (c.fieldApiName ++ " " ++ operatorMap c.operator ++ " " ++ c.value,
      (isValidDateFormatRun s c.value).2)
  else if c.operator = "includes" ∨ c.operator = "excludes" then
    (c.fieldApiName ++ " " ++ operatorMap c.operator ++ " ('" ++
      (escapeSoqlValueRun s c.value).1 ++ "')", (escapeSoqlValueRun s c.value).2)
  else if c.value ≠ "" ∧ dateFormatPatternTest c.value then
    (c.fieldApiName ++ " " ++ operatorMap c.operator ++ " " ++ c.value, s)
  else
    (c.fieldApiName ++ " " ++ operatorMap c.operator ++ " '" ++
      (escapeSoqlValueRun s c.value).1 ++ "'", (escapeSoqlValueRun s c.value).2)

/-- The mixed-conjunction loop with the state threaded through each
`buildConditionClause` call. -/
def mixedRestRun (s : BuilderState) : Bool → List Condition → String × BuilderState
  | inOr, [] => ((if inOr then ")" else ""), s)
  | inOr, c :: rs =>
    if c.conjunction = "OR" then
      if inOr then
        if (match rs with | n :: _ => n.conjunction == "OR" | [] => false) then
          ("\n         OR " ++ (buildConditionClauseRun s c).1 ++
            (mixedRestRun (buildConditionClauseRun s c).2 true rs).1,
           (mixedRestRun (buildConditionClauseRun s c).2 true rs).2)
        else
          ("\n         OR " ++ (buildConditionClauseRun s c).1 ++ ")" ++
            (mixedRestRun (buildConditionClauseRun s c).2 false rs).1,
           (mixedRestRun (buildConditionClauseRun s c).2 false rs).2)
      else
        if (match rs with | n :: _ => n.conjunction == "OR" | [] => false) then
          ("\n    AND (" ++ (buildConditionClauseRun s c).1 ++
            (mixedRestRun (buildConditionClauseRun s c).2 true rs).1,
           (mixedRestRun (buildConditionClauseRun s c).2 true rs).2)
        else
          ("\n    AND (" ++ (buildConditionClauseRun s c).1 ++ ")" ++
            (mixedRestRun (buildConditionClauseRun s c).2 false rs).1,
           (mixedRestRun (buildConditionClauseRun s c).2 false rs).2)
    else
      ("\n    AND " ++ (buildConditionClauseRun s c).1 ++
        (mixedRestRun (buildConditionClauseRun s c).2 inOr rs).1,
       (mixedRestRun (buildConditionClauseRun s c).2 inOr rs).2)

/-- The simple (single-conjunction) loop with the state threaded through
each `buildConditionClause` call. -/
def simpleRestRun (s : BuilderState) : List Condition → String × BuilderState
  | [] => ("", s)
  | c :: rs =>
    ("\n    " ++ c.conjunction ++ " " ++ (buildConditionClauseRun s c).1 ++
      (simpleRestRun (buildConditionClauseRun s c).2 rs).1,
     (simpleRestRun (buildConditionClauseRun s c).2 rs).2)

/-- `buildWhereClause` with the state threaded through. -/
def buildWhereClauseRun (s : BuilderState) : String × BuilderState :=
  match s.whereConditions.filter (fun c => isValidCondition c) with
  | [] => ("", s)
  | c0 :: rest =>
    if (rest.any fun c => c.conjunction = "OR") && (rest.any fun c => c.conjunction = "AND")
    then
      ((buildConditionClauseRun s c0).1 ++
        (mixedRestRun (buildConditionClauseRun s c0).2 false rest).1,
       (mixedRestRun (buildConditionClauseRun s c0).2 false rest).2)
    else
      ((buildConditionClauseRun s c0).1 ++
        (simpleRestRun (buildConditionClauseRun s c0).2 rest).1,
       (simpleRestRun (buildConditionClauseRun s c0).2 rest).2)

/-- `get generatedSoql()` with the state threaded through its
`buildWhereClause` calls. -/
def generatedSoqlRun (s : BuilderState) : String × BuilderState :=
  if ¬ strTruthy s.selectedObjectApiName then ("", s)
  else if isListMode s then
    if s.selectedFieldApiNames.length = 0 then ("", s)
    else
      ("SELECT " ++ String.intercalate ",\n       " s.selectedFieldApiNames ++
        "\n  FROM " ++ jsOrStr s.selectedObjectApiName "" ++
        (if (buildWhereClauseRun s).1 ≠ "" then "\n WHERE " ++ (buildWhereClauseRun s).1
         else "") ++ limitSuffix s,
       (buildWhereClauseRun s).2)
  else if isAggregateMode s then
    if ¬ strTruthy s.aggregateFunction then ("", s)
    else if jsOrStr s.aggregateFunction "" = "COUNT" ∧ ¬ strTruthy s.aggregateFieldApiName then
      ("SELECT " ++ "COUNT()" ++ "\n  FROM " ++ jsOrStr s.selectedObjectApiName "" ++
        (if (buildWhereClauseRun s).1 ≠ "" then "\n WHERE " ++ (buildWhereClauseRun s).1
         else ""),
       (buildWhereClauseRun s).2)
    else if ¬ strTruthy s.aggregateFieldApiName then ("", s)
    else
      ("SELECT " ++
        (jsOrStr s.aggregateFunction "" ++ "(" ++ jsOrStr s.aggregateFieldApiName "" ++ ")") ++
        "\n  FROM " ++ jsOrStr s.selectedObjectApiName "" ++
        (if (buildWhereClauseRun s).1 ≠ "" then "\n WHERE " ++ (buildWhereClauseRun s).1
         else ""),
       (buildWhereClauseRun s).2)
  else ("", s)

end QueryBuilder

/-! ## Specification-side definitions

These definitions are written from the wording of the specification and
of the claims (not from the source); the theorems below compare them
with the source embeddings above. -/

namespace QueryBuilder

/-- Scan a character stream for single quotes that are not escaped by a
backslash: returns the number of unescaped quotes and whether the scan
ends inside a pending escape. -/
def escScan : List Char → Bool → Nat × Bool
  | [], esc => (0, esc)
  | ch :: rest, esc =>
    if esc then escScan rest false
    else if ch = '\\' then escScan rest true
    else if ch = '\'' then
      let r := escScan rest false
      (r.1 + 1, r.2)
    else escScan rest false

/-- The number of unescaped single quotes of a string — the quotes that
can open or close a SOQL string literal. -/
def unescapedQuoteCount (s : String) : Nat := (escScan s.data false).1

/-- The operators handled before any value-quoting path of
`buildConditionClause` (null checks and date literals). -/
def specialValueOp (op : String) : Prop :=
  op = "is_null" ∨ op = "is_not_null" ∨ op = "date_today" ∨ op = "date_this_week" ∨
  op = "date_this_month" ∨ op = "date_this_year" ∨ op = "date_last_n_days" ∨
  op = "date_next_n_days" ∨ op = "date_gt_today" ∨ op = "date_lt_today" ∨
  op = "date_gt_last_n_days" ∨ op = "date_lt_next_n_days"

/-- The three LIKE operators. -/
def likeOp (op : String) : Prop :=
  op = "contains" ∨ op = "starts_with" ∨ op = "ends_with"

/-- The multipicklist operators. -/
def multiOp (op : String) : Prop := op = "includes" ∨ op = "excludes"

/-- The field types rendered without quotes as numbers. -/
def numericType (t : String) : Prop :=
  t = "INTEGER" ∨ t = "DOUBLE" ∨ t = "CURRENCY" ∨ t = "PERCENT"

/-- The field types rendered without quotes as date literals. -/
def dateType (t : String) : Prop := t = "DATE" ∨ t = "DATETIME"

/-- The conditions whose value is incorporated inside a quoted SOQL
string literal by `buildConditionClause`: the LIKE operators, and — for
conditions that reach past the special-operator, `{!UserId}`, boolean,
numeric and date paths — the INCLUDES/EXCLUDES path and the default
quoted-string path. -/
def valueQuotedPath (c : Condition) : Prop :=
  likeOp c.operator ∨
  (¬ specialValueOp c.operator ∧ ¬ likeOp c.operator ∧ c.value ≠ "{!UserId}" ∧
    c.fieldType ≠ "BOOLEAN" ∧ ¬ numericType c.fieldType ∧ ¬ dateType c.fieldType ∧
    (multiOp c.operator ∨ ¬ (c.value ≠ "" ∧ dateFormatPatternTest c.value = true)))

/-- Whether some WHERE condition has both a field and an operator. -/
def hasValidCondition (s : BuilderState) : Bool :=
  s.whereConditions.any (fun c => isValidCondition c)

/-- Truthiness of the query limit. -/
def queryLimitSet : Option Int → Bool
  | some n => n ≠ 0
  | none => false

/-- The claim's completeness condition for `generatedSoql`: an object is
selected and, in List mode, at least one field is selected, or, in
Aggregate mode, an aggregate function is selected and (unless it is
COUNT) a target field is selected. -/
def selectionComplete (s : BuilderState) : Prop :=
  strTruthy s.selectedObjectApiName = true ∧
  ((isListMode s = true ∧ s.selectedFieldApiNames ≠ []) ∨
   (isAggregateMode s = true ∧ strTruthy s.aggregateFunction = true ∧
     (jsOrStr s.aggregateFunction "" = "COUNT" ∨ strTruthy s.aggregateFieldApiName = true)))

/-- The SOQL shape described by the claim: a SELECT list (fields, or
FUNC(field), or COUNT()), a FROM clause, a WHERE clause exactly when some
condition has field and operator, and (List mode only) a LIMIT clause
exactly when the query limit is set. -/
def soqlShape (s : BuilderState) : String :=
  "SELECT " ++
    (if isListMode s then String.intercalate ",\n       " s.selectedFieldApiNames
     else if jsOrStr s.aggregateFunction "" = "COUNT" ∧ ¬ strTruthy s.aggregateFieldApiName then
       "COUNT()"
     else jsOrStr s.aggregateFunction "" ++ "(" ++ jsOrStr s.aggregateFieldApiName "" ++ ")") ++
    "\n  FROM " ++ jsOrStr s.selectedObjectApiName "" ++
    (if hasValidCondition s then "\n WHERE " ++ buildWhereClause s else "") ++
    (if isListMode s ∧ queryLimitSet s.queryLimit then
      "\n LIMIT " ++ toString ((s.queryLimit).getD 0) else "")

/-- The per-condition fields the round-trip claim lists (everything but
the generated `id`). -/
def condFields (c : Condition) : String × String × String × String × String × String :=
  (c.fieldApiName, c.fieldLabel, c.fieldType, c.operator, c.value, c.conjunction)

/-- A builder state with an object selected and a query limit of 0 —
reachable by typing `0` into the limit input
(`handleQueryLimitChange`: `value ? parseInt(value, 10) : null` with
the truthy string "0"). -/
def limitZeroState : BuilderState :=
  { selectedObjectApiName := some "Account", selectedObjectLabel := some "Account",
    objectSearchTerm := "Account", queryType := "List", aggregateFunction := none,
    aggregateFieldApiName := none, aggregateFieldSearchTerm := "",
    selectedFieldApiNames := ["Id"], whereConditions := [], conditionIdCounter := 0,
    activeOwnerFilter := none, queryLimit := some 0 }

/-- A complete builder state used to witness the round-trip theorem. -/
def roundtripState : BuilderState :=
  { selectedObjectApiName := some "Opportunity", selectedObjectLabel := some "Opportunity",
    objectSearchTerm := "Opportunity", queryType := "List", aggregateFunction := none,
    aggregateFieldApiName := none, aggregateFieldSearchTerm := "",
    selectedFieldApiNames := ["Id", "Name", "Amount"],
    whereConditions := [⟨"cond_1", "StageName", "Stage", "STRING", "equals", "Open", "AND"⟩],
    conditionIdCounter := 1, activeOwnerFilter := some "me", queryLimit := some 25 }

end QueryBuilder

namespace ConfigurableList

/-- The currency format mapping as the specification words it: `$xM`
(one decimal) from one million, `$xK` (no decimals) from one thousand up
to (excluding) one million, plain `$x` for every other numeric value,
and `String(value)` for non-numeric values. -/
def formatCurrencySpec (value : JVal) : String :=
  match toNumber value with
  | none => jsToString value
  | some n =>
    if n ≥ 1000000 then "$" ++ toFixed (n / 1000000) 1 ++ "M"
    else if 1000 ≤ n ∧ n < 1000000 then "$" ++ toFixed (n / 1000) 0 ++ "K"
    else "$" ++ toFixed n 0

/-- The pagination consistency invariant of the claim: `totalPages` is
`max 1 ⌈filtered/perPage⌉` when pagination is enabled and `1` when it is
disabled, and the current page lies between 1 and `totalPages`. -/
def pagConsistent (s : ListState) : Prop :=
  (s.enablePagination = true →
    s.totalPages = max 1 (ceilDivNat s.filteredRows.length s.recordsPerPage)) ∧
  (s.enablePagination = false → s.totalPages = 1) ∧
  1 ≤ s.currentPage ∧ s.currentPage ≤ s.totalPages

/-- The badge variant the claim describes for a whole-day difference
`n`: warning up to 3 days left, success beyond, error when overdue,
warning today — replaced by the extracted override when one other than
`Auto` is configured. -/
def daysBadgeSpecVariant (n : Int) (ov : Option String) : String :=
  match ov with
  | some o =>
    if o ≠ "" ∧ o ≠ "Auto" then extractBaseVariant o
    else if 0 < n then (if n ≤ 3 then "warning" else "success")
    else if n < 0 then "error"
    else "warning"
  | none =>
    if 0 < n then (if n ≤ 3 then "warning" else "success")
    else if n < 0 then "error"
    else "warning"

/-- The badge the claim describes for a whole-day difference `n` and a
configured override: `<n>d Left`, `<n>d Over`, or `Today`, with the
variant of `daysBadgeSpecVariant`. -/
def daysBadgeSpec (n : Int) (ov : Option String) : Badge :=
  { text :=
      if 0 < n then toString n ++ "d Left"
      else if n < 0 then toString (-n) ++ "d Over"
      else "Today"
    variant := daysBadgeSpecVariant n ov
    icon :=
      if 0 < n then "utility:clock"
      else if n < 0 then "utility:warning"
      else "utility:clock"
    className := "cc-custom-badge cc-badge-" ++ daysBadgeSpecVariant n ov }

end ConfigurableList

namespace ComponentGroup

/-- "layoutType case-insensitively equals `t`": the configuration is
present and carries a layout type whose lower-casing is `t`. -/
def hasLayoutTypeCI (groupConfig : Option GroupConfig) (t : String) : Prop :=
  ∃ cfg s, groupConfig = some cfg ∧ cfg.layoutType = some s ∧ s.toLower = t

end ComponentGroup

/-! # Theorems -/

/-- A non-empty string stays non-empty under `toLower`. -/
theorem toLower_ne_empty {s : String} (h : s ≠ "") : s.toLower ≠ "" := by
  intro hc
  apply h
  have hd : s.toLower.data = [] := by rw [hc]
  rw [show s.toLower = String.map Char.toLower s from rfl, String.map_eq] at hd
  simp at hd
  exact String.ext hd

/-- C7.  Currency format computation: `formatCurrency` returns
`String(value)` for non-numeric values and, for numeric `n`, `$` + one
decimal of `n/1000000` + `M` when `n ≥ 1000000`, `$` + zero decimals of
`n/1000` + `K` when `1000 ≤ n < 1000000`, and `$` + `n.toFixed(0)` for
every other numeric `n`, including negative values and zero. -/
theorem formatCurrency_matches_claim (v : Dashboard.JVal) :
    Dashboard.ConfigurableList.formatCurrency v =
      Dashboard.ConfigurableList.formatCurrencySpec v := by
  unfold Dashboard.ConfigurableList.formatCurrency Dashboard.ConfigurableList.formatCurrencySpec
  cases Dashboard.toNumber v with
  | none => rfl
  | some n =>
    by_cases h1 : n ≥ 1000000
    · simp [h1]
    · by_cases h2 : n ≥ 1000
      · simp only [if_neg h1]
        rw [if_pos h2, if_pos ⟨h2, by linarith⟩]
      · simp only [if_neg h1]
        rw [if_neg h2, if_neg (by intro hc; exact h2 hc.1)]

/-- `String.toLower` as a `List.map` over the character data (so that
literal lower-casings evaluate). -/
theorem toLower_eval (s : String) : s.toLower = String.mk (s.data.map Char.toLower) :=
  String.map_eq _ _

/-- Evaluation of `layoutClass` on a present configuration. -/
theorem layoutClass_some (c : ComponentGroup.GroupConfig) :
    ComponentGroup.layoutClass (some c) =
      (if (jsOrStr c.layoutType "Horizontal").toLower = "vertical" then
        "hm-group-layout-vertical"
      else if (jsOrStr c.layoutType "Horizontal").toLower = "grid" then
        "hm-group-layout-grid"
      else "hm-group-layout-horizontal") := rfl

/-- Evaluation of `layoutStyle` via `componentsPerRow`. -/
theorem layoutStyle_eq (cfg : Option ComponentGroup.GroupConfig) :
    ComponentGroup.layoutStyle cfg =
      (match ComponentGroup.componentsPerRow cfg with
        | some n => if n ≠ 0 then "--components-per-row: " ++ toString n ++ ";" else ""
        | none => "") := rfl

/-- `hasLayoutTypeCI` fails on an absent configuration or layout type. -/
theorem hasLayoutTypeCI_shape {cfg : Option ComponentGroup.GroupConfig} {t : String}
    (h : ComponentGroup.hasLayoutTypeCI cfg t) :
    ∃ c s, cfg = some c ∧ c.layoutType = some s ∧ s.toLower = t := h

/-- C8.  Responsive layout computation: `layoutClass` is the vertical
class iff the configured layout type case-insensitively equals
`Vertical`, the grid class iff it case-insensitively equals `Grid`, and
the horizontal class in every other case (including missing
configuration or layout type); `layoutStyle` is
`--components-per-row: N;` exactly when `componentsPerRow` is set to a
truthy `N`, and empty otherwise. -/
theorem layoutClass_layoutStyle_characterization
    (cfg : Option ComponentGroup.GroupConfig) (n : Int) :
    (ComponentGroup.layoutClass cfg = "hm-group-layout-vertical" ↔
      ComponentGroup.hasLayoutTypeCI cfg "vertical") ∧
    (ComponentGroup.layoutClass cfg = "hm-group-layout-grid" ↔
      ComponentGroup.hasLayoutTypeCI cfg "grid") ∧
    (¬ ComponentGroup.hasLayoutTypeCI cfg "vertical" →
      ¬ ComponentGroup.hasLayoutTypeCI cfg "grid" →
      ComponentGroup.layoutClass cfg = "hm-group-layout-horizontal") ∧
    (ComponentGroup.componentsPerRow cfg = some n → n ≠ 0 →
      ComponentGroup.layoutStyle cfg = "--components-per-row: " ++ toString n ++ ";") ∧
    (ComponentGroup.componentsPerRow cfg = none ∨
        ComponentGroup.componentsPerRow cfg = some 0 →
      ComponentGroup.layoutStyle cfg = "") := by
  refine ⟨?_, ?_, ?_, ?_, ?_⟩
  · -- vertical iff
    cases cfg with
    | none =>
      simp only [ComponentGroup.hasLayoutTypeCI]
      constructor
      · intro h; exact absurd h (by decide)
      · rintro ⟨c, s, hc, -, -⟩; cases hc
    | some c =>
      rw [layoutClass_some]
      cases hlt : c.layoutType with
      | none =>
        rw [show jsOrStr none "Horizontal" = "Horizontal" from rfl, toLower_eval]
        constructor
        · intro h; exact absurd h (by decide)
        · rintro ⟨c', s', hc, hs, -⟩
          cases hc; rw [hlt] at hs; cases hs
      | some s =>
        by_cases hs0 : s = ""
        · subst hs0
          rw [show jsOrStr (some "") "Horizontal" = "Horizontal" from rfl, toLower_eval]
          constructor
          · intro h; exact absurd h (by decide)
          · rintro ⟨c', s', hc, hs, hlow⟩
            cases hc; rw [hlt] at hs; cases hs
            exact absurd hlow (by rw [toLower_eval]; decide)
        · rw [show jsOrStr (some s) "Horizontal" = s from by simp [jsOrStr, hs0]]
          by_cases hv : s.toLower = "vertical"
          · rw [if_pos hv]
            exact ⟨fun _ => ⟨c, s, rfl, hlt, hv⟩, fun _ => rfl⟩
          · rw [if_neg hv]
            constructor
            · intro h
              by_cases hg : s.toLower = "grid"
              · rw [if_pos hg] at h; exact absurd h (by decide)
              · rw [if_neg hg] at h; exact absurd h (by decide)
            · rintro ⟨c', s', hc, hs, hlow⟩
              cases hc; rw [hlt] at hs; cases hs
              exact absurd hlow hv
  · -- grid iff
    cases cfg with
    | none =>
      simp only [ComponentGroup.hasLayoutTypeCI]
      constructor
      · intro h; exact absurd h (by decide)
      · rintro ⟨c, s, hc, -, -⟩; cases hc
    | some c =>
      rw [layoutClass_some]
      cases hlt : c.layoutType with
      | none =>
        rw [show jsOrStr none "Horizontal" = "Horizontal" from rfl, toLower_eval]
        constructor
        · intro h; exact absurd h (by decide)
        · rintro ⟨c', s', hc, hs, -⟩
          cases hc; rw [hlt] at hs; cases hs
      | some s =>
        by_cases hs0 : s = ""
        · subst hs0
          rw [show jsOrStr (some "") "Horizontal" = "Horizontal" from rfl, toLower_eval]
          constructor
          · intro h; exact absurd h (by decide)
          · rintro ⟨c', s', hc, hs, hlow⟩
            cases hc; rw [hlt] at hs; cases hs
            exact absurd hlow (by rw [toLower_eval]; decide)
        · rw [show jsOrStr (some s) "Horizontal" = s from by simp [jsOrStr, hs0]]
          by_cases hv : s.toLower = "vertical"
          · rw [if_pos hv]
            constructor
            · intro h; exact absurd h (by decide)
            · rintro ⟨c', s', hc, hs, hlow⟩
              cases hc; rw [hlt] at hs; cases hs
              rw [hv] at hlow; exact absurd hlow (by decide)
          · rw [if_neg hv]
            by_cases hg : s.toLower = "grid"
            · rw [if_pos hg]
              exact ⟨fun _ => ⟨c, s, rfl, hlt, hg⟩, fun _ => rfl⟩
            · rw [if_neg hg]
              constructor
              · intro h; exact absurd h (by decide)
              · rintro ⟨c', s', hc, hs, hlow⟩
                cases hc; rw [hlt] at hs; cases hs
                exact absurd hlow hg
  · -- horizontal otherwise
    intro hnv hng
    cases cfg with
    | none => rfl
    | some c =>
      rw [layoutClass_some]
      by_cases hv : (jsOrStr c.layoutType "Horizontal").toLower = "vertical"
      · exfalso
        apply hnv
        cases hlt : c.layoutType with
        | none =>
          rw [hlt, show jsOrStr none "Horizontal" = "Horizontal" from rfl, toLower_eval] at hv
          exact absurd hv (by decide)
        | some s =>
          by_cases hs0 : s = ""
          · subst hs0
            rw [hlt, show jsOrStr (some "") "Horizontal" = "Horizontal" from rfl,
              toLower_eval] at hv
            exact absurd hv (by decide)
          · refine ⟨c, s, rfl, hlt, ?_⟩
            rw [hlt] at hv
            rwa [show jsOrStr (some s) "Horizontal" = s from by simp [jsOrStr, hs0]] at hv
      · rw [if_neg hv]
        by_cases hg : (jsOrStr c.layoutType "Horizontal").toLower = "grid"
        · exfalso
          apply hng
          cases hlt : c.layoutType with
          | none =>
            rw [hlt, show jsOrStr none "Horizontal" = "Horizontal" from rfl, toLower_eval] at hg
            exact absurd hg (by decide)
          | some s =>
            by_cases hs0 : s = ""
            · subst hs0
              rw [hlt, show jsOrStr (some "") "Horizontal" = "Horizontal" from rfl,
                toLower_eval] at hg
              exact absurd hg (by decide)
            · refine ⟨c, s, rfl, hlt, ?_⟩
              rw [hlt] at hg
              rwa [show jsOrStr (some s) "Horizontal" = s from by simp [jsOrStr, hs0]] at hg
        · rw [if_neg hg]
  · -- style set
    intro h hn
    rw [layoutStyle_eq, h]
    simp [hn]
  · -- style empty
    intro h
    rcases h with h | h
    · rw [layoutStyle_eq, h]
    · rw [layoutStyle_eq, h]
      simp

/-- C8 witness: a concrete grid configuration with three components per
row gets the grid class and the matching style string. -/
theorem layoutClass_layoutStyle_witness :
    ComponentGroup.layoutClass (some ⟨some "GRID", some 3⟩) = "hm-group-layout-grid" ∧
    ComponentGroup.layoutStyle (some ⟨some "GRID", some 3⟩) = "--components-per-row: 3;" :=
  ⟨(layoutClass_layoutStyle_characterization (some ⟨some "GRID", some 3⟩) 3).2.1.mpr
      ⟨⟨some "GRID", some 3⟩, "GRID", rfl, rfl, by rw [toLower_eval]; rfl⟩,
    (layoutClass_layoutStyle_characterization (some ⟨some "GRID", some 3⟩) 3).2.2.2.1
      rfl (by decide)⟩

/-- C2.  With mixed conjunctions `[A, B (OR), C (AND)]`, the claim (and
the code's own comment "wrap previous clause and this one") requires the
OR run to be parenthesised together with the preceding condition,
yielding `(A OR B) AND C`; the code instead emits
`A AND (B) AND C` — the preceding condition stays outside the
parentheses and the user-selected OR is replaced by AND. -/
theorem buildWhereClause_mixed_grouping_evaluation :
    Dashboard.QueryBuilder.buildWhereClauseOf
        [⟨"c1", "StageName", "Stage", "STRING", "equals", "Open", "AND"⟩,
         ⟨"c2", "Priority__c", "Priority", "STRING", "equals", "High", "OR"⟩,
         ⟨"c3", "Amount", "Amount", "CURRENCY", "greater_than", "100", "AND"⟩] =
      "StageName = 'Open'\n    AND (Priority__c = 'High')\n    AND Amount > 100" ∧
    Dashboard.QueryBuilder.buildWhereClauseOf
        [⟨"c1", "StageName", "Stage", "STRING", "equals", "Open", "AND"⟩,
         ⟨"c2", "Priority__c", "Priority", "STRING", "equals", "High", "OR"⟩,
         ⟨"c3", "Amount", "Amount", "CURRENCY", "greater_than", "100", "AND"⟩] ≠
      "(StageName = 'Open'\n    OR Priority__c = 'High')\n    AND Amount > 100" := by
  constructor
  · rfl
  · decide

/-- Appending to a non-empty string stays non-empty. -/
theorem append_ne_empty_of_left {a : String} (ha : a ≠ "") (b : String) :
    a ++ b ≠ "" := by
  intro h
  apply ha
  have h2 := congrArg String.data h
  simp only [String.data_append, List.append_eq_nil] at h2
  exact String.ext (by simpa using h2.1)

/-- Appending a non-empty string yields a non-empty string. -/
theorem append_ne_empty_of_right (a : String) {b : String} (hb : b ≠ "") :
    a ++ b ≠ "" := by
  intro h
  apply hb
  have h2 := congrArg String.data h
  simp only [String.data_append, List.append_eq_nil] at h2
  exact String.ext (by simpa using h2.2)

/-- Every branch of `buildConditionClause` yields a non-empty clause. -/
theorem buildConditionClause_ne_empty (c : QueryBuilder.Condition) :
    QueryBuilder.buildConditionClause c ≠ "" := by
  unfold QueryBuilder.buildConditionClause
  intro h
  by_cases h1 : c.operator = "is_null"
  · rw [if_pos h1] at h
    exact append_ne_empty_of_right _ (by decide) h
  rw [if_neg h1] at h
  by_cases h2 : c.operator = "is_not_null"
  · rw [if_pos h2] at h
    exact append_ne_empty_of_right _ (by decide) h
  rw [if_neg h2] at h
  by_cases h3 : c.operator = "date_today"
  · rw [if_pos h3] at h
    exact append_ne_empty_of_right _ (by decide) h
  rw [if_neg h3] at h
  by_cases h4 : c.operator = "date_this_week"
  · rw [if_pos h4] at h
    exact append_ne_empty_of_right _ (by decide) h
  rw [if_neg h4] at h
  by_cases h5 : c.operator = "date_this_month"
  · rw [if_pos h5] at h
    exact append_ne_empty_of_right _ (by decide) h
  rw [if_neg h5] at h
  by_cases h6 : c.operator = "date_this_year"
  · rw [if_pos h6] at h
    exact append_ne_empty_of_right _ (by decide) h
  rw [if_neg h6] at h
  by_cases h7 : c.operator = "date_last_n_days"
  · rw [if_pos h7] at h
    exact append_ne_empty_of_left (append_ne_empty_of_right _ (by decide)) _ h
  rw [if_neg h7] at h
  by_cases h8 : c.operator = "date_next_n_days"
  · rw [if_pos h8] at h
    exact append_ne_empty_of_left (append_ne_empty_of_right _ (by decide)) _ h
  rw [if_neg h8] at h
  by_cases h9 : c.operator = "date_gt_today"
  · rw [if_pos h9] at h
    exact append_ne_empty_of_right _ (by decide) h
  rw [if_neg h9] at h
  by_cases h10 : c.operator = "date_lt_today"
  · rw [if_pos h10] at h
    exact append_ne_empty_of_right _ (by decide) h
  rw [if_neg h10] at h
  by_cases h11 : c.operator = "date_gt_last_n_days"
  · rw [if_pos h11] at h
    exact append_ne_empty_of_left (append_ne_empty_of_right _ (by decide)) _ h
  rw [if_neg h11] at h
  by_cases h12 : c.operator = "date_lt_next_n_days"
  · rw [if_pos h12] at h
    exact append_ne_empty_of_left (append_ne_empty_of_right _ (by decide)) _ h
  rw [if_neg h12] at h
  by_cases h13 : c.operator = "contains"
  · rw [if_pos h13] at h
    exact append_ne_empty_of_right _ (by decide) h
  rw [if_neg h13] at h
  by_cases h14 : c.operator = "starts_with"
  · rw [if_pos h14] at h
    exact append_ne_empty_of_right _ (by decide) h
  rw [if_neg h14] at h
  by_cases h15 : c.operator = "ends_with"
  · rw [if_pos h15] at h
    exact append_ne_empty_of_right _ (by decide) h
  rw [if_neg h15] at h
  by_cases h16 : c.value = "{!UserId}"
  · rw [if_pos h16] at h
    exact append_ne_empty_of_right _ (by decide) h
  rw [if_neg h16] at h
  by_cases h17 : c.fieldType = "BOOLEAN"
  · rw [if_pos h17] at h
    exact append_ne_empty_of_left (append_ne_empty_of_right _ (by decide)) _ h
  rw [if_neg h17] at h
  by_cases h18 : c.fieldType = "INTEGER" ∨ c.fieldType = "DOUBLE" ∨ c.fieldType = "CURRENCY" ∨ c.fieldType = "PERCENT"
  · rw [if_pos h18] at h
    exact append_ne_empty_of_left (append_ne_empty_of_right _ (by decide)) _ h
  rw [if_neg h18] at h
  by_cases h19 : c.fieldType = "DATE" ∨ c.fieldType = "DATETIME"
  · rw [if_pos h19] at h
    exact append_ne_empty_of_left (append_ne_empty_of_right _ (by decide)) _ h
  rw [if_neg h19] at h
  by_cases h20 : c.operator = "includes" ∨ c.operator = "excludes"
  · rw [if_pos h20] at h
    exact append_ne_empty_of_right _ (by decide) h
  rw [if_neg h20] at h
  by_cases h21 : c.value ≠ "" ∧ QueryBuilder.dateFormatPatternTest c.value = true
  · rw [if_pos h21] at h
    exact append_ne_empty_of_left (append_ne_empty_of_right _ (by decide)) _ h
  rw [if_neg h21] at h
  exact append_ne_empty_of_right _ (by decide) h

/-- `buildWhereClause` is empty exactly when no condition passes the
validity filter. -/
theorem buildWhereClauseOf_eq_empty_iff (l : List QueryBuilder.Condition) :
    QueryBuilder.buildWhereClauseOf l = "" ↔
      l.filter (fun c => QueryBuilder.isValidCondition c) = [] := by
  unfold QueryBuilder.buildWhereClauseOf
  cases hf : l.filter (fun c => QueryBuilder.isValidCondition c) with
  | nil => simp
  | cons c0 rest =>
    simp only [List.cons_ne_nil, iff_false]
    intro h
    split_ifs at h <;>
      (have h2 := congrArg String.data h
       simp only [String.data_append, List.append_eq_nil] at h2
       exact buildConditionClause_ne_empty c0 (String.ext (by simpa using h2.1)))

/-- `hasValidCondition` agrees with non-emptiness of the generated WHERE
clause. -/
theorem hasValidCondition_iff (s : QueryBuilder.BuilderState) :
    QueryBuilder.hasValidCondition s = true ↔ QueryBuilder.buildWhereClause s ≠ "" := by
  unfold QueryBuilder.hasValidCondition QueryBuilder.buildWhereClause
  rw [Ne, buildWhereClauseOf_eq_empty_iff]
  constructor
  · intro h hnil
    obtain ⟨a, ha, hpa⟩ := List.any_eq_true.mp h
    have hmem : a ∈ List.filter (fun c => QueryBuilder.isValidCondition c)
        s.whereConditions := List.mem_filter.mpr ⟨ha, hpa⟩
    rw [hnil] at hmem
    cases hmem
  · intro h
    cases hany : s.whereConditions.any (fun c => QueryBuilder.isValidCondition c) with
    | true => rfl
    | false =>
      exfalso
      apply h
      rw [List.filter_eq_nil_iff]
      intro a ha
      exact List.any_eq_false.mp hany a ha

/-- The conditional WHERE append agrees with the claim's
`hasValidCondition` guard. -/
theorem whereSuffix_eq (s : QueryBuilder.BuilderState) :
    QueryBuilder.whereSuffix s =
      (if QueryBuilder.hasValidCondition s then
        "\n WHERE " ++ QueryBuilder.buildWhereClause s else "") := by
  unfold QueryBuilder.whereSuffix
  by_cases hwc : QueryBuilder.buildWhereClause s = ""
  · rw [if_neg (by simpa using hwc), if_neg (fun hv => (hasValidCondition_iff s).mp hv hwc)]
  · rw [if_pos hwc, if_pos ((hasValidCondition_iff s).mpr hwc)]

/-- In List mode the conditional LIMIT append agrees with the claim's
`queryLimitSet` guard. -/
theorem limitSuffix_eq_shape (s : QueryBuilder.BuilderState)
    (hlist : QueryBuilder.isListMode s = true) :
    QueryBuilder.limitSuffix s =
      (if QueryBuilder.isListMode s ∧ QueryBuilder.queryLimitSet s.queryLimit then
        "\n LIMIT " ++ toString ((s.queryLimit).getD 0) else "") := by
  unfold QueryBuilder.limitSuffix
  rcases hql : s.queryLimit with _ | n
  · simp [QueryBuilder.queryLimitSet]
  · by_cases hn : n = 0
    · subst hn
      simp [QueryBuilder.queryLimitSet]
    · simp [QueryBuilder.queryLimitSet, hn, hlist]

/-- `soqlShape` always starts with `SELECT ` and is never empty. -/
theorem soqlShape_ne_empty (s : QueryBuilder.BuilderState) :
    QueryBuilder.soqlShape s ≠ "" := by
  unfold QueryBuilder.soqlShape
  intro h
  have h2 := congrArg String.data h
  simp only [String.data_append] at h2
  simp at h2

/-- When the selection is incomplete, `generatedSoql` is empty. -/
theorem generatedSoql_empty_of_not_complete (s : QueryBuilder.BuilderState)
    (h : ¬ QueryBuilder.selectionComplete s) : QueryBuilder.generatedSoql s = "" := by
  unfold QueryBuilder.generatedSoql
  by_cases hobj : strTruthy s.selectedObjectApiName = true
  · rw [if_neg (by simp [hobj])]
    by_cases hlist : QueryBuilder.isListMode s = true
    · have hfe : s.selectedFieldApiNames = [] := by
        by_contra hne
        exact h ⟨hobj, Or.inl ⟨hlist, hne⟩⟩
      rw [if_pos hlist, if_pos (by simp [hfe])]
    · rw [if_neg hlist]
      by_cases hagg : QueryBuilder.isAggregateMode s = true
      · rw [if_pos hagg]
        by_cases hfn : strTruthy s.aggregateFunction = true
        · have hcnt : ¬ (jsOrStr s.aggregateFunction "" = "COUNT" ∨
              strTruthy s.aggregateFieldApiName = true) :=
            fun hc => h ⟨hobj, Or.inr ⟨hagg, hfn, hc⟩⟩
          push_neg at hcnt
          rw [if_neg (by simp [hfn]), if_neg (fun hc => hcnt.1 hc.1), if_pos hcnt.2]
        · rw [if_pos hfn]
      · rw [if_neg hagg]
  · rw [if_pos (by simp [hobj])]

/-- In complete List mode, `generatedSoql` matches the claimed shape. -/
theorem generatedSoql_list_shape (s : QueryBuilder.BuilderState)
    (hobj : strTruthy s.selectedObjectApiName = true)
    (hlist : QueryBuilder.isListMode s = true)
    (hfe : s.selectedFieldApiNames ≠ []) :
    QueryBuilder.generatedSoql s = QueryBuilder.soqlShape s := by
  have hlen : ¬ (s.selectedFieldApiNames.length = 0) := by
    simpa [List.length_eq_zero] using hfe
  unfold QueryBuilder.generatedSoql QueryBuilder.soqlShape
  rw [if_neg (by simp [hobj]), if_pos hlist, if_neg hlen, whereSuffix_eq,
    limitSuffix_eq_shape s hlist, if_pos hlist]

/-- In complete Aggregate mode, `generatedSoql` matches the claimed
shape. -/
theorem generatedSoql_agg_shape (s : QueryBuilder.BuilderState)
    (hobj : strTruthy s.selectedObjectApiName = true)
    (hagg : QueryBuilder.isAggregateMode s = true)
    (hfn : strTruthy s.aggregateFunction = true)
    (hcnt : jsOrStr s.aggregateFunction "" = "COUNT" ∨
      strTruthy s.aggregateFieldApiName = true) :
    QueryBuilder.generatedSoql s = QueryBuilder.soqlShape s := by
  have hlist : ¬ (QueryBuilder.isListMode s = true) := by
    have hq : s.queryType = "Aggregate" := by
      simpa [QueryBuilder.isAggregateMode] using hagg
    simp [QueryBuilder.isListMode, hq]
  unfold QueryBuilder.generatedSoql QueryBuilder.soqlShape
  rw [if_neg (by simp [hobj]), if_neg hlist, if_pos hagg, if_neg (by simp [hfn]),
    if_neg hlist]
  have hlim : (if QueryBuilder.isListMode s = true ∧
      QueryBuilder.queryLimitSet s.queryLimit = true then
        "\n LIMIT " ++ toString (s.queryLimit.getD 0) else "") = "" :=
    if_neg (fun hc => hlist hc.1)
  by_cases hfld : strTruthy s.aggregateFieldApiName = true
  · rw [if_neg (fun hc => hc.2 hfld), if_neg (by simp [hfld]),
      if_neg (fun hc => hc.2 hfld), whereSuffix_eq, hlim, String.append_empty]
  · have hcount : jsOrStr s.aggregateFunction "" = "COUNT" := by
      rcases hcnt with hcc | hcc
      · exact hcc
      · exact absurd hcc hfld
    rw [if_pos ⟨hcount, hfld⟩, if_pos ⟨hcount, hfld⟩, whereSuffix_eq, hlim,
      String.append_empty]

/-- C3.  `generatedSoql` is non-empty exactly when the structured
selection is complete (object selected, and fields in List mode, or an
aggregate function — plus a target field unless it is COUNT — in
Aggregate mode), and it then has the claimed SELECT/FROM shape with a
WHERE clause exactly when some condition has field and operator and
(List mode only) a LIMIT clause exactly when the query limit is set. -/
theorem generatedSoql_complete_characterization (s : QueryBuilder.BuilderState) :
    (QueryBuilder.generatedSoql s ≠ "" ↔ QueryBuilder.selectionComplete s) ∧
    (QueryBuilder.selectionComplete s →
      QueryBuilder.generatedSoql s = QueryBuilder.soqlShape s) := by
  by_cases hc : QueryBuilder.selectionComplete s
  · have heq : QueryBuilder.generatedSoql s = QueryBuilder.soqlShape s := by
      obtain ⟨hobj, hcase⟩ := hc
      rcases hcase with ⟨hlist, hfe⟩ | ⟨hagg, hfn, hcnt⟩
      · exact generatedSoql_list_shape s hobj hlist hfe
      · exact generatedSoql_agg_shape s hobj hagg hfn hcnt
    refine ⟨⟨fun _ => hc, fun _ => ?_⟩, fun _ => heq⟩
    rw [heq]
    exact soqlShape_ne_empty s
  · refine ⟨⟨fun hne => absurd (generatedSoql_empty_of_not_complete s hc) hne,
      fun h => absurd h hc⟩, fun h => absurd h hc⟩

/-- C3 witness: a complete List-mode selection over Account with one
condition and a limit produces the full shaped query. -/
theorem generatedSoql_witness :
    QueryBuilder.selectionComplete
      { selectedObjectApiName := some "Account", selectedObjectLabel := some "Account",
        objectSearchTerm := "Account", queryType := "List", aggregateFunction := none,
        aggregateFieldApiName := none, aggregateFieldSearchTerm := "",
        selectedFieldApiNames := ["Id", "Name"],
        whereConditions :=
          [⟨"c1", "Name", "Name", "STRING", "starts_with", "Ac", "AND"⟩],
        conditionIdCounter := 1, activeOwnerFilter := none, queryLimit := some 50 } ∧
    QueryBuilder.generatedSoql
      { selectedObjectApiName := some "Account", selectedObjectLabel := some "Account",
        objectSearchTerm := "Account", queryType := "List", aggregateFunction := none,
        aggregateFieldApiName := none, aggregateFieldSearchTerm := "",
        selectedFieldApiNames := ["Id", "Name"],
        whereConditions :=
          [⟨"c1", "Name", "Name", "STRING", "starts_with", "Ac", "AND"⟩],
        conditionIdCounter := 1, activeOwnerFilter := none, queryLimit := some 50 } =
      QueryBuilder.soqlShape
      { selectedObjectApiName := some "Account", selectedObjectLabel := some "Account",
        objectSearchTerm := "Account", queryType := "List", aggregateFunction := none,
        aggregateFieldApiName := none, aggregateFieldSearchTerm := "",
        selectedFieldApiNames := ["Id", "Name"],
        whereConditions :=
          [⟨"c1", "Name", "Name", "STRING", "starts_with", "Ac", "AND"⟩],
        conditionIdCounter := 1, activeOwnerFilter := none, queryLimit := some 50 } :=
  ⟨⟨by decide, Or.inl ⟨by decide, by decide⟩⟩,
    (generatedSoql_complete_characterization _).2 ⟨by decide, Or.inl ⟨by decide, by decide⟩⟩⟩

/-- The quote scan distributes over list concatenation: counts add and
the escape state threads through. -/
theorem escScan_append (xs ys : List Char) (e : Bool) :
    QueryBuilder.escScan (xs ++ ys) e =
      ((QueryBuilder.escScan xs e).1 +
        (QueryBuilder.escScan ys (QueryBuilder.escScan xs e).2).1,
       (QueryBuilder.escScan ys (QueryBuilder.escScan xs e).2).2) := by
  induction xs generalizing e with
  | nil => simp [QueryBuilder.escScan]
  | cons c cs ih =>
    cases e with
    | true => simp [QueryBuilder.escScan, ih]
    | false =>
      by_cases hb : c = '\\'
      · simp [QueryBuilder.escScan, hb, ih]
      · by_cases hq : c = '\''
        · simp [QueryBuilder.escScan, hb, hq, ih, Nat.add_assoc, Nat.add_comm,
            Nat.add_left_comm]
        · simp [QueryBuilder.escScan, hb, hq, ih]

/-- Scanning the escaped form of any value finds no unescaped quote and
ends outside an escape. -/
theorem escScan_escapeList (v : List Char) :
    QueryBuilder.escScan (QueryBuilder.escapeList v) false = (0, false) := by
  induction v with
  | nil => rfl
  | cons c cs ih =>
    show QueryBuilder.escScan (QueryBuilder.escapeChar c ++ QueryBuilder.escapeList cs)
      false = (0, false)
    rw [escScan_append]
    by_cases hb : c = '\\'
    · simp [QueryBuilder.escapeChar, hb, QueryBuilder.escScan, ih]
    · by_cases hq : c = '\''
      · simp [QueryBuilder.escapeChar, hb, hq, QueryBuilder.escScan, ih]
      · simp [QueryBuilder.escapeChar, hb, hq, QueryBuilder.escScan, ih]

/-- `escapeSoqlValue` output is quote-clean: no unescaped quotes and no
dangling escape. -/
theorem escapeSoqlValue_scan (v : String) :
    QueryBuilder.escScan (QueryBuilder.escapeSoqlValue v).data false = (0, false) :=
  escScan_escapeList v.data

/-- Inserting a quote-clean string after a separator that always resets
the escape state does not change the number of unescaped quotes. -/
theorem unescapedQuoteCount_insert (f l1 v l2 : String)
    (hv : QueryBuilder.escScan v.data false = (0, false))
    (hl1 : ∀ e, (QueryBuilder.escScan l1.data e).2 = false) :
    QueryBuilder.unescapedQuoteCount (f ++ l1 ++ v ++ l2) =
      QueryBuilder.unescapedQuoteCount (f ++ l1 ++ l2) := by
  unfold QueryBuilder.unescapedQuoteCount
  simp only [String.data_append, escScan_append, hl1, hv]
  omega

/-- The `contains` branch of `buildConditionClause`. -/
theorem bcc_contains (c : QueryBuilder.Condition) (h : c.operator = "contains") :
    QueryBuilder.buildConditionClause c =
      c.fieldApiName ++ " LIKE '%" ++ QueryBuilder.escapeSoqlValue c.value ++ "%'" := by
  unfold QueryBuilder.buildConditionClause
  rw [h]
  simp

/-- The `starts_with` branch of `buildConditionClause`. -/
theorem bcc_starts_with (c : QueryBuilder.Condition) (h : c.operator = "starts_with") :
    QueryBuilder.buildConditionClause c =
      c.fieldApiName ++ " LIKE '" ++ QueryBuilder.escapeSoqlValue c.value ++ "%'" := by
  unfold QueryBuilder.buildConditionClause
  rw [h]
  simp

/-- The `ends_with` branch of `buildConditionClause`. -/
theorem bcc_ends_with (c : QueryBuilder.Condition) (h : c.operator = "ends_with") :
    QueryBuilder.buildConditionClause c =
      c.fieldApiName ++ " LIKE '%" ++ QueryBuilder.escapeSoqlValue c.value ++ "'" := by
  unfold QueryBuilder.buildConditionClause
  rw [h]
  simp

/-- The INCLUDES/EXCLUDES branch of `buildConditionClause`. -/
theorem bcc_includes (c : QueryBuilder.Condition)
    (hns : ¬ QueryBuilder.specialValueOp c.operator)
    (hnl : ¬ QueryBuilder.likeOp c.operator)
    (hnu : c.value ≠ "{!UserId}") (hb : c.fieldType ≠ "BOOLEAN")
    (hnum : ¬ QueryBuilder.numericType c.fieldType)
    (hdt : ¬ QueryBuilder.dateType c.fieldType)
    (hm : QueryBuilder.multiOp c.operator) :
    QueryBuilder.buildConditionClause c =
      c.fieldApiName ++ " " ++ QueryBuilder.operatorMap c.operator ++ " ('" ++
        QueryBuilder.escapeSoqlValue c.value ++ "')" := by
  unfold QueryBuilder.specialValueOp at hns
  unfold QueryBuilder.likeOp at hnl
  unfold QueryBuilder.numericType at hnum
  unfold QueryBuilder.dateType at hdt
  unfold QueryBuilder.multiOp at hm
  push_neg at hns hnl
  obtain ⟨n1, n2, n3, n4, n5, n6, n7, n8, n9, n10, n11, n12⟩ := hns
  obtain ⟨l1, l2, l3⟩ := hnl
  unfold QueryBuilder.buildConditionClause
  rw [if_neg n1, if_neg n2, if_neg n3, if_neg n4, if_neg n5, if_neg n6, if_neg n7,
    if_neg n8, if_neg n9, if_neg n10, if_neg n11, if_neg n12, if_neg l1, if_neg l2,
    if_neg l3, if_neg hnu, if_neg hb, if_neg hnum, if_neg hdt, if_pos hm]

/-- The default quoted-string branch of `buildConditionClause`. -/
theorem bcc_default (c : QueryBuilder.Condition)
    (hns : ¬ QueryBuilder.specialValueOp c.operator)
    (hnl : ¬ QueryBuilder.likeOp c.operator)
    (hnu : c.value ≠ "{!UserId}") (hb : c.fieldType ≠ "BOOLEAN")
    (hnum : ¬ QueryBuilder.numericType c.fieldType)
    (hdt : ¬ QueryBuilder.dateType c.fieldType)
    (hm : ¬ QueryBuilder.multiOp c.operator)
    (hdfb : ¬ (c.value ≠ "" ∧ QueryBuilder.dateFormatPatternTest c.value = true)) :
    QueryBuilder.buildConditionClause c =
      c.fieldApiName ++ " " ++ QueryBuilder.operatorMap c.operator ++ " '" ++
        QueryBuilder.escapeSoqlValue c.value ++ "'" := by
  unfold QueryBuilder.specialValueOp at hns
  unfold QueryBuilder.likeOp at hnl
  unfold QueryBuilder.numericType at hnum
  unfold QueryBuilder.dateType at hdt
  unfold QueryBuilder.multiOp at hm
  push_neg at hns hnl
  obtain ⟨n1, n2, n3, n4, n5, n6, n7, n8, n9, n10, n11, n12⟩ := hns
  obtain ⟨l1, l2, l3⟩ := hnl
  unfold QueryBuilder.buildConditionClause
  rw [if_neg n1, if_neg n2, if_neg n3, if_neg n4, if_neg n5, if_neg n6, if_neg n7,
    if_neg n8, if_neg n9, if_neg n10, if_neg n11, if_neg n12, if_neg l1, if_neg l2,
    if_neg l3, if_neg hnu, if_neg hb, if_neg hnum, if_neg hdt, if_neg hm, if_neg hdfb]

/-- C1 counterexample.  For a numeric (`CURRENCY`) condition,
`buildConditionClause` embeds the user-supplied value verbatim: the
value `5 OR Name = 'x'` contributes two unescaped quotes to the clause
(the clause is `Amount = 5 OR Name = 'x'`), while the empty value
contributes none — so it is not the case that every quote of every
condition value appears escaped for every field type and operator. -/
theorem escaping_claim_counterexample :
    QueryBuilder.buildConditionClause
        ⟨"c1", "Amount", "Amount", "CURRENCY", "equals", "5 OR Name = 'x'", "AND"⟩ =
      "Amount = 5 OR Name = 'x'" ∧
    QueryBuilder.unescapedQuoteCount (QueryBuilder.buildConditionClause
      ⟨"c1", "Amount", "Amount", "CURRENCY", "equals", "5 OR Name = 'x'", "AND"⟩) = 2 ∧
    QueryBuilder.unescapedQuoteCount (QueryBuilder.buildConditionClause
      ⟨"c1", "Amount", "Amount", "CURRENCY", "equals", "", "AND"⟩) = 0 := by
  refine ⟨rfl, ?_, ?_⟩ <;> decide

/-- C1 (amended).  `escapeSoqlValue` escapes every backslash as `\\` and
every quote as `\'`, so its output contains no unescaped quote and no
dangling escape; consequently, for every condition on a value-quoting
path (LIKE operators, INCLUDES/EXCLUDES, or the default quoted-string
path), the user-supplied value contributes no unescaped quote to the
generated clause: the clause has exactly as many unescaped quotes as
with the empty value. -/
theorem escaping_amended (v : String) (c : QueryBuilder.Condition) :
    QueryBuilder.escScan (QueryBuilder.escapeSoqlValue v).data false = (0, false) ∧
    (QueryBuilder.valueQuotedPath c →
      QueryBuilder.unescapedQuoteCount (QueryBuilder.buildConditionClause c) =
        QueryBuilder.unescapedQuoteCount
          (QueryBuilder.buildConditionClause { c with value := "" })) := by
  refine ⟨escapeSoqlValue_scan v, ?_⟩
  intro hq
  have hesc0 : QueryBuilder.escapeSoqlValue "" = "" := rfl
  rcases hq with hlike | ⟨hns, hnl, hnu, hb, hnum, hdt, hrest⟩
  · rcases hlike with hop | hop | hop
    · rw [bcc_contains c hop, bcc_contains { c with value := "" } hop, hesc0,
        String.append_empty]
      exact unescapedQuoteCount_insert _ _ _ _ (escapeSoqlValue_scan c.value)
        (fun e => by cases e <;> decide)
    · rw [bcc_starts_with c hop, bcc_starts_with { c with value := "" } hop, hesc0,
        String.append_empty]
      exact unescapedQuoteCount_insert _ _ _ _ (escapeSoqlValue_scan c.value)
        (fun e => by cases e <;> decide)
    · rw [bcc_ends_with c hop, bcc_ends_with { c with value := "" } hop, hesc0,
        String.append_empty]
      exact unescapedQuoteCount_insert _ _ _ _ (escapeSoqlValue_scan c.value)
        (fun e => by cases e <;> decide)
  · by_cases hm : QueryBuilder.multiOp c.operator
    · rw [bcc_includes c hns hnl hnu hb hnum hdt hm,
        bcc_includes { c with value := "" } hns hnl (by simp) hb hnum hdt hm, hesc0,
        String.append_empty]
      exact unescapedQuoteCount_insert _ _ _ _ (escapeSoqlValue_scan c.value)
        (fun e => by cases e <;> decide)
    · have hdfb : ¬ (c.value ≠ "" ∧ QueryBuilder.dateFormatPatternTest c.value = true) := by
        rcases hrest with hm' | hdfb'
        · exact absurd hm' hm
        · exact hdfb'
      rw [bcc_default c hns hnl hnu hb hnum hdt hm hdfb,
        bcc_default { c with value := "" } hns hnl (by simp) hb hnum hdt hm (by simp),
        hesc0, String.append_empty]
      exact unescapedQuoteCount_insert _ _ _ _ (escapeSoqlValue_scan c.value)
        (fun e => by cases e <;> decide)

/-- C1 witness: for a concrete `contains` condition with a quote in the
value, the clause has the same number of unescaped quotes as with the
empty value. -/
theorem escaping_amended_witness :
    QueryBuilder.valueQuotedPath
      ⟨"c1", "Name", "Name", "STRING", "contains", "O'Neil", "AND"⟩ ∧
    QueryBuilder.unescapedQuoteCount (QueryBuilder.buildConditionClause
        ⟨"c1", "Name", "Name", "STRING", "contains", "O'Neil", "AND"⟩) =
      QueryBuilder.unescapedQuoteCount (QueryBuilder.buildConditionClause
        ⟨"c1", "Name", "Name", "STRING", "contains", "", "AND"⟩) :=
  ⟨Or.inl (Or.inl rfl),
    (escaping_amended "O'Neil"
      ⟨"c1", "Name", "Name", "STRING", "contains", "O'Neil", "AND"⟩).2
      (Or.inl (Or.inl rfl))⟩

/-- `x || null` leaves every value other than the empty string alone. -/
theorem jsOrNull_eq_self {x : Option String} (h : x ≠ some "") : jsOrNull x = x := by
  match x with
  | none => rfl
  | some a =>
    show (if a = "" then none else some a) = some a
    exact if_neg (fun ha => h (by rw [ha]))

/-- The condition restoration of `deserializeQueryConfig` preserves every
field the round-trip claim lists (only the generated `id` can change). -/
theorem restoreConditions_fields (l : List QueryBuilder.Condition) (k : Nat) :
    ((QueryBuilder.restoreConditions k l).2).map QueryBuilder.condFields =
      l.map QueryBuilder.condFields := by
  induction l generalizing k with
  | nil => rfl
  | cons c cs ih =>
    unfold QueryBuilder.restoreConditions
    by_cases hid : c.id = ""
    · simp [hid, ih, QueryBuilder.condFields]
    · simp [hid, ih, QueryBuilder.condFields]

/-- C10 counterexample.  The round trip does not restore a query limit
of 0: `deserializeQueryConfig` evaluates `config.queryLimit || null`, so
the serialized limit 0 (reachable by typing 0 into the limit input)
deserializes to `null`, although an object is selected. -/
theorem roundtrip_claim_counterexample :
    strTruthy QueryBuilder.limitZeroState.selectedObjectApiName = true ∧
    QueryBuilder.limitZeroState.queryLimit = some 0 ∧
    (QueryBuilder.deserializeQueryConfig
        (QueryBuilder.serializeQueryConfig QueryBuilder.limitZeroState)
        QueryBuilder.limitZeroState).queryLimit = none := by
  refine ⟨rfl, rfl, rfl⟩

/-- C10 (amended).  For every builder state with an object selected, if
none of the serialized scalar fields is a falsy value other than null —
the object label, aggregate function, aggregate field and owner filter
are not empty strings, the query type is non-empty and the query limit
is not 0 — then deserializing the serialized configuration restores the
object API name and label, query type, selected fields, aggregate
function and field, every condition's fieldApiName, fieldLabel,
fieldType, operator, value and conjunction, the owner filter and the
query limit (falsy scalars would instead be normalised to their
defaults, as the counterexample shows for limit 0). -/
theorem roundtrip_amended (s : QueryBuilder.BuilderState)
    (hobj : strTruthy s.selectedObjectApiName = true)
    (hlab : s.selectedObjectLabel ≠ some "")
    (hfn : s.aggregateFunction ≠ some "")
    (hfld : s.aggregateFieldApiName ≠ some "")
    (hof : s.activeOwnerFilter ≠ some "")
    (hqt : s.queryType ≠ "")
    (hql : s.queryLimit ≠ some 0) :
    (QueryBuilder.deserializeQueryConfig (QueryBuilder.serializeQueryConfig s)
        s).selectedObjectApiName = s.selectedObjectApiName ∧
    (QueryBuilder.deserializeQueryConfig (QueryBuilder.serializeQueryConfig s)
        s).selectedObjectLabel = s.selectedObjectLabel ∧
    (QueryBuilder.deserializeQueryConfig (QueryBuilder.serializeQueryConfig s)
        s).queryType = s.queryType ∧
    (QueryBuilder.deserializeQueryConfig (QueryBuilder.serializeQueryConfig s)
        s).selectedFieldApiNames = s.selectedFieldApiNames ∧
    (QueryBuilder.deserializeQueryConfig (QueryBuilder.serializeQueryConfig s)
        s).aggregateFunction = s.aggregateFunction ∧
    (QueryBuilder.deserializeQueryConfig (QueryBuilder.serializeQueryConfig s)
        s).aggregateFieldApiName = s.aggregateFieldApiName ∧
    ((QueryBuilder.deserializeQueryConfig (QueryBuilder.serializeQueryConfig s)
        s).whereConditions).map QueryBuilder.condFields =
      (s.whereConditions).map QueryBuilder.condFields ∧
    (QueryBuilder.deserializeQueryConfig (QueryBuilder.serializeQueryConfig s)
        s).activeOwnerFilter = s.activeOwnerFilter ∧
    (QueryBuilder.deserializeQueryConfig (QueryBuilder.serializeQueryConfig s)
        s).queryLimit = s.queryLimit := by
  have hobj' : s.selectedObjectApiName ≠ some "" := by
    intro he
    rw [he] at hobj
    exact absurd hobj (by decide)
  refine ⟨?_, ?_, ?_, ?_, ?_, ?_, ?_, ?_, ?_⟩
  · show jsOrNull s.selectedObjectApiName = s.selectedObjectApiName
    exact jsOrNull_eq_self hobj'
  · show jsOrNull s.selectedObjectLabel = s.selectedObjectLabel
    exact jsOrNull_eq_self hlab
  · show (if s.queryType = "" then "List" else s.queryType) = s.queryType
    exact if_neg hqt
  · rfl
  · show jsOrNull s.aggregateFunction = s.aggregateFunction
    exact jsOrNull_eq_self hfn
  · show jsOrNull s.aggregateFieldApiName = s.aggregateFieldApiName
    exact jsOrNull_eq_self hfld
  · show ((QueryBuilder.restoreConditions s.conditionIdCounter
        (s.whereConditions.map (fun c => c))).2).map QueryBuilder.condFields =
      (s.whereConditions).map QueryBuilder.condFields
    rw [List.map_id', restoreConditions_fields]
  · show jsOrNull s.activeOwnerFilter = s.activeOwnerFilter
    exact jsOrNull_eq_self hof
  · show (match s.queryLimit with
      | some n => if n = 0 then none else some n
      | none => none) = s.queryLimit
    match hq : s.queryLimit with
    | none => rfl
    | some n =>
      show (if n = 0 then none else some n) = some n
      exact if_neg (fun h0 => hql (by rw [hq, h0]))

/-- C10 witness: the round trip restores all listed fields of a concrete
complete builder state. -/
theorem roundtrip_amended_witness :
    (QueryBuilder.deserializeQueryConfig
        (QueryBuilder.serializeQueryConfig QueryBuilder.roundtripState)
        QueryBuilder.roundtripState).queryLimit = QueryBuilder.roundtripState.queryLimit ∧
    ((QueryBuilder.deserializeQueryConfig
        (QueryBuilder.serializeQueryConfig QueryBuilder.roundtripState)
        QueryBuilder.roundtripState).whereConditions).map QueryBuilder.condFields =
      (QueryBuilder.roundtripState.whereConditions).map QueryBuilder.condFields :=
  ⟨(roundtrip_amended QueryBuilder.roundtripState (by decide) (by decide) (by decide)
      (by decide) (by decide) (by decide) (by decide)).2.2.2.2.2.2.2.2,
    (roundtrip_amended QueryBuilder.roundtripState (by decide) (by decide) (by decide)
      (by decide) (by decide) (by decide) (by decide)).2.2.2.2.2.2.1⟩

/-- `buildConditionClause` (state-threaded) returns the state unchanged. -/
theorem buildConditionClauseRun_state (s : QueryBuilder.BuilderState)
    (c : QueryBuilder.Condition) : (QueryBuilder.buildConditionClauseRun s c).2 = s := by
  simp only [QueryBuilder.buildConditionClauseRun, QueryBuilder.escapeSoqlValueRun,
    QueryBuilder.isValidDateFormatRun, apply_ite Prod.snd, ite_self]

/-- The mixed-conjunction loop (state-threaded) returns the state
unchanged. -/
theorem mixedRestRun_state (l : List QueryBuilder.Condition) :
    ∀ (inOr : Bool) (s : QueryBuilder.BuilderState),
      (QueryBuilder.mixedRestRun s inOr l).2 = s := by
  induction l with
  | nil => intro inOr s; rfl
  | cons c rs ih =>
    intro inOr s
    simp only [QueryBuilder.mixedRestRun, apply_ite Prod.snd, ih,
      buildConditionClauseRun_state, ite_self]

/-- The single-conjunction loop (state-threaded) returns the state
unchanged. -/
theorem simpleRestRun_state (l : List QueryBuilder.Condition) :
    ∀ (s : QueryBuilder.BuilderState), (QueryBuilder.simpleRestRun s l).2 = s := by
  induction l with
  | nil => intro s; rfl
  | cons c rs ih =>
    intro s
    simp only [QueryBuilder.simpleRestRun, ih, buildConditionClauseRun_state]

/-- `buildWhereClause` (state-threaded) returns the state unchanged. -/
theorem buildWhereClauseRun_state (s : QueryBuilder.BuilderState) :
    (QueryBuilder.buildWhereClauseRun s).2 = s := by
  unfold QueryBuilder.buildWhereClauseRun
  cases hf : s.whereConditions.filter (fun c => QueryBuilder.isValidCondition c) with
  | nil => rfl
  | cons c0 rest =>
    simp only [apply_ite Prod.snd, mixedRestRun_state, simpleRestRun_state,
      buildConditionClauseRun_state, ite_self]

/-- `generatedSoql` (state-threaded) returns the state unchanged. -/
theorem generatedSoqlRun_state (s : QueryBuilder.BuilderState) :
    (QueryBuilder.generatedSoqlRun s).2 = s := by
  simp only [QueryBuilder.generatedSoqlRun, apply_ite Prod.snd,
    buildWhereClauseRun_state, ite_self]

/-- C9.  The SOQL clause builders are pure: two runs on equal inputs
produce equal output strings for `buildWhereClause`,
`buildConditionClause`, `escapeSoqlValue` and `isValidDateFormat`, and
evaluating them (including the whole of `generatedSoql`) returns the
component state unchanged — in particular `whereConditions`,
`queryType`, the selected fields and `queryLimit` are untouched. -/
theorem soql_formatting_pure (s₁ s₂ : QueryBuilder.BuilderState)
    (c₁ c₂ : QueryBuilder.Condition) (v₁ v₂ : String) :
    (s₁ = s₂ →
      (QueryBuilder.buildWhereClauseRun s₁).1 = (QueryBuilder.buildWhereClauseRun s₂).1) ∧
    (s₁ = s₂ → c₁ = c₂ →
      (QueryBuilder.buildConditionClauseRun s₁ c₁).1 =
        (QueryBuilder.buildConditionClauseRun s₂ c₂).1) ∧
    (v₁ = v₂ → QueryBuilder.escapeSoqlValue v₁ = QueryBuilder.escapeSoqlValue v₂ ∧
      QueryBuilder.isValidDateFormat v₁ = QueryBuilder.isValidDateFormat v₂) ∧
    (QueryBuilder.buildConditionClauseRun s₁ c₁).2 = s₁ ∧
    (QueryBuilder.buildWhereClauseRun s₁).2 = s₁ ∧
    (QueryBuilder.generatedSoqlRun s₁).2 = s₁ ∧
    ((QueryBuilder.generatedSoqlRun s₁).2.whereConditions = s₁.whereConditions ∧
      (QueryBuilder.generatedSoqlRun s₁).2.queryType = s₁.queryType ∧
      (QueryBuilder.generatedSoqlRun s₁).2.selectedFieldApiNames =
        s₁.selectedFieldApiNames ∧
      (QueryBuilder.generatedSoqlRun s₁).2.queryLimit = s₁.queryLimit) := by
  refine ⟨fun h => by rw [h], fun h hc => by rw [h, hc],
    fun h => by rw [h]; exact ⟨rfl, rfl⟩,
    buildConditionClauseRun_state s₁ c₁, buildWhereClauseRun_state s₁,
    generatedSoqlRun_state s₁, ?_⟩
  rw [generatedSoqlRun_state s₁]
  exact ⟨rfl, rfl, rfl, rfl⟩

/-- C9 witness: on a concrete complete state, two runs agree and
`generatedSoql` leaves the state unchanged. -/
theorem soql_formatting_pure_witness :
    (QueryBuilder.buildWhereClauseRun QueryBuilder.roundtripState).1 =
      (QueryBuilder.buildWhereClauseRun QueryBuilder.roundtripState).1 ∧
    (QueryBuilder.generatedSoqlRun QueryBuilder.roundtripState).2 =
      QueryBuilder.roundtripState :=
  ⟨(soql_formatting_pure QueryBuilder.roundtripState QueryBuilder.roundtripState
      ⟨"", "", "", "", "", "", ""⟩ ⟨"", "", "", "", "", "", ""⟩ "" "").1 rfl,
    (soql_formatting_pure QueryBuilder.roundtripState QueryBuilder.roundtripState
      ⟨"", "", "", "", "", "", ""⟩ ⟨"", "", "", "", "", "", ""⟩ "" "").2.2.2.2.2.1⟩

/-- The sorting step only touches `filteredRows`. -/
theorem sortStep_fields (t : ConfigurableList.ListState) :
    (ConfigurableList.sortStep t).enablePagination = t.enablePagination ∧
    (ConfigurableList.sortStep t).recordsPerPage = t.recordsPerPage ∧
    (ConfigurableList.sortStep t).currentPage = t.currentPage := by
  unfold ConfigurableList.sortStep
  by_cases h : t.enableColumnSorting = true ∧ strTruthy t.sortColumn = true
  · rw [if_pos h]
    cases t.columns.find? (fun col => col.key == jsOrStr t.sortColumn "") with
    | none => exact ⟨rfl, rfl, rfl⟩
    | some column => exact ⟨rfl, rfl, rfl⟩
  · rw [if_neg h]
    exact ⟨rfl, rfl, rfl⟩

/-- `updatePagination` establishes the pagination invariant whenever the
incoming current page is at least 1 (and 1 when pagination is off). -/
theorem updatePagination_consistent (t : ConfigurableList.ListState)
    (_hrpp : 0 < t.recordsPerPage) (hcp : 1 ≤ t.currentPage)
    (hcpd : t.enablePagination = false → t.currentPage = 1) :
    ConfigurableList.pagConsistent (ConfigurableList.updatePagination t) := by
  unfold ConfigurableList.updatePagination ConfigurableList.pagConsistent
  cases he : t.enablePagination with
  | false =>
    rw [if_pos (by simp [he])]
    refine ⟨?_, fun _ => rfl, hcp, ?_⟩
    · intro hc
      simp at hc
    · have h1 := hcpd he
      show t.currentPage ≤ 1
      omega
  | true =>
    rw [if_neg (by simp [he])]
    refine ⟨fun _ => rfl, ?_, ?_, ?_⟩
    · intro hc
      simp at hc
    · show 1 ≤ (if t.currentPage > max 1 (ConfigurableList.ceilDivNat
          t.filteredRows.length t.recordsPerPage) then
        max 1 (ConfigurableList.ceilDivNat t.filteredRows.length t.recordsPerPage)
      else t.currentPage)
      have hm := Nat.le_max_left 1 (ConfigurableList.ceilDivNat
        t.filteredRows.length t.recordsPerPage)
      split_ifs <;> omega
    · show (if t.currentPage > max 1 (ConfigurableList.ceilDivNat
          t.filteredRows.length t.recordsPerPage) then
        max 1 (ConfigurableList.ceilDivNat t.filteredRows.length t.recordsPerPage)
      else t.currentPage) ≤ max 1 (ConfigurableList.ceilDivNat
        t.filteredRows.length t.recordsPerPage)
      split_ifs <;> omega

/-- C4.  Pagination consistency: `applyFilter` (re)establishes the
invariant — `totalPages = max 1 ⌈|filteredRows| / recordsPerPage⌉` when
pagination is enabled, `totalPages = 1` when disabled, and
`1 ≤ currentPage ≤ totalPages` — `updatePagination` establishes it from
any legal current page, the three page-navigation handlers preserve it,
and `paginatedRows` is exactly the slice of `filteredRows` from
`(currentPage-1)·recordsPerPage` to `currentPage·recordsPerPage` when
pagination is enabled (all of `filteredRows` when disabled). -/
theorem pagination_consistency (s : ConfigurableList.ListState) (page : Int)
    (hrpp : 0 < s.recordsPerPage) :
    ConfigurableList.pagConsistent (ConfigurableList.applyFilter s) ∧
    (1 ≤ s.currentPage → (s.enablePagination = false → s.currentPage = 1) →
      ConfigurableList.pagConsistent (ConfigurableList.updatePagination s)) ∧
    (ConfigurableList.pagConsistent s →
      ConfigurableList.pagConsistent (ConfigurableList.handlePageChange page s)) ∧
    (ConfigurableList.pagConsistent s →
      ConfigurableList.pagConsistent (ConfigurableList.handleNextPage s)) ∧
    (ConfigurableList.pagConsistent s →
      ConfigurableList.pagConsistent (ConfigurableList.handlePreviousPage s)) ∧
    (1 ≤ s.currentPage →
      ConfigurableList.paginatedRows s =
        (if s.enablePagination then
          (s.filteredRows.take (s.currentPage * s.recordsPerPage)).drop
            ((s.currentPage - 1) * s.recordsPerPage)
        else s.filteredRows)) := by
  refine ⟨?_, ?_, ?_, ?_, ?_, ?_⟩
  · -- applyFilter
    apply updatePagination_consistent
    · have h := (sortStep_fields { s with filteredRows := ConfigurableList.baseFilteredRows s }).2.1
      rw [show ({ ConfigurableList.sortStep
            { s with filteredRows := ConfigurableList.baseFilteredRows s } with
          currentPage := 1 } : ConfigurableList.ListState).recordsPerPage =
          (ConfigurableList.sortStep
            { s with filteredRows := ConfigurableList.baseFilteredRows s }).recordsPerPage
        from rfl, h]
      exact hrpp
    · exact le_refl 1
    · intro _
      rfl
  · -- updatePagination
    intro hcp hcpd
    exact updatePagination_consistent s hrpp hcp hcpd
  · -- handlePageChange
    intro hs
    obtain ⟨h1, h2, h3, h4⟩ := hs
    unfold ConfigurableList.handlePageChange ConfigurableList.pagConsistent
    split_ifs with hg
    · dsimp only
      refine ⟨h1, h2, ?_, ?_⟩ <;> omega
    · exact ⟨h1, h2, h3, h4⟩
  · -- handleNextPage
    intro hs
    obtain ⟨h1, h2, h3, h4⟩ := hs
    unfold ConfigurableList.handleNextPage ConfigurableList.pagConsistent
    split_ifs with hg
    · dsimp only
      refine ⟨h1, h2, ?_, ?_⟩ <;> omega
    · exact ⟨h1, h2, h3, h4⟩
  · -- handlePreviousPage
    intro hs
    obtain ⟨h1, h2, h3, h4⟩ := hs
    unfold ConfigurableList.handlePreviousPage ConfigurableList.pagConsistent
    split_ifs with hg
    · dsimp only
      refine ⟨h1, h2, ?_, ?_⟩ <;> omega
    · exact ⟨h1, h2, h3, h4⟩
  · -- paginatedRows slice
    intro hcp
    unfold ConfigurableList.paginatedRows
    cases he : s.enablePagination with
    | false => rw [if_pos (by simp [he]), if_neg (by simp [he])]
    | true =>
      rw [if_neg (by simp [he]), if_pos (by simp [he])]
      obtain ⟨k, hk⟩ : ∃ k, s.currentPage = k + 1 := ⟨s.currentPage - 1, by omega⟩
      rw [hk, List.drop_take]
      congr 1
      simp [Nat.succ_mul]

/-- C4 witness: on a concrete list state with pagination enabled, the
invariant holds after `applyFilter` and the slice law holds. -/
theorem pagination_consistency_witness :
    ConfigurableList.pagConsistent (ConfigurableList.applyFilter
      { rows := [⟨"Account", []⟩, ⟨"Account", []⟩, ⟨"Contact", []⟩],
        filteredRows := [], activeFilter := some "Account", columns := [],
        currentPage := 7, recordsPerPage := 2, enablePagination := true,
        totalPages := 1, sortColumn := none, sortDirection := "asc",
        enableColumnSorting := false }) ∧
    ConfigurableList.paginatedRows
      { rows := [⟨"Account", []⟩, ⟨"Account", []⟩, ⟨"Contact", []⟩],
        filteredRows := [⟨"Account", []⟩, ⟨"Account", []⟩], activeFilter := some "Account",
        columns := [], currentPage := 1, recordsPerPage := 2, enablePagination := true,
        totalPages := 1, sortColumn := none, sortDirection := "asc",
        enableColumnSorting := false } =
      (([⟨"Account", []⟩, ⟨"Account", []⟩] :
          List ConfigurableList.Row).take (1 * 2)).drop ((1 - 1) * 2) :=
  ⟨(pagination_consistency
      { rows := [⟨"Account", []⟩, ⟨"Account", []⟩, ⟨"Contact", []⟩],
        filteredRows := [], activeFilter := some "Account", columns := [],
        currentPage := 7, recordsPerPage := 2, enablePagination := true,
        totalPages := 1, sortColumn := none, sortDirection := "asc",
        enableColumnSorting := false } 1 (by decide)).1,
    (pagination_consistency
      { rows := [⟨"Account", []⟩, ⟨"Account", []⟩, ⟨"Contact", []⟩],
        filteredRows := [⟨"Account", []⟩, ⟨"Account", []⟩], activeFilter := some "Account",
        columns := [], currentPage := 1, recordsPerPage := 2, enablePagination := true,
        totalPages := 1, sortColumn := none, sortDirection := "asc",
        enableColumnSorting := false } 1 (by decide)).2.2.2.2.2 (by decide)⟩

/-- A non-empty override always extracts to a non-empty base variant. -/
theorem extractBaseVariant_ne_empty (o : String) (h : o ≠ "") :
    ConfigurableList.extractBaseVariant o ≠ "" := by
  unfold ConfigurableList.extractBaseVariant
  split_ifs <;> first | decide | exact toLower_ne_empty h

/-- `x || d` keeps a non-empty present string. -/
theorem jsOrStr_some_ne (s d : String) (h : s ≠ "") : jsOrStr (some s) d = s := by
  unfold jsOrStr
  exact if_neg h

/-- `x || d` falls back to the default on a missing string. -/
theorem jsOrStr_none (d : String) : jsOrStr none d = d := rfl

/-- In the future branch, the code's variant equals the claimed one. -/
theorem badgeVariant_pos (n : Int) (ov : Option String) (h1 : 0 < n) :
    jsOrStr (ConfigurableList.badgeBaseVariant ov)
        (if n ≤ 3 then "warning" else "success") =
      ConfigurableList.daysBadgeSpecVariant n ov := by
  unfold ConfigurableList.badgeBaseVariant ConfigurableList.daysBadgeSpecVariant
  cases ov with
  | none =>
    rw [jsOrStr_none, if_pos h1]
  | some o =>
    dsimp only
    by_cases ho : o ≠ "" ∧ o ≠ "Auto"
    · rw [if_pos ho, if_pos ho,
        jsOrStr_some_ne _ _ (extractBaseVariant_ne_empty o ho.1)]
    · rw [if_neg ho, if_neg ho, jsOrStr_none, if_pos h1]

/-- In the overdue branch, the code's variant equals the claimed one. -/
theorem badgeVariant_neg (n : Int) (ov : Option String) (h1 : n < 0) :
    jsOrStr (ConfigurableList.badgeBaseVariant ov) "error" =
      ConfigurableList.daysBadgeSpecVariant n ov := by
  unfold ConfigurableList.badgeBaseVariant ConfigurableList.daysBadgeSpecVariant
  cases ov with
  | none =>
    rw [jsOrStr_none, if_neg (show ¬ 0 < n from by omega), if_pos h1]
  | some o =>
    dsimp only
    by_cases ho : o ≠ "" ∧ o ≠ "Auto"
    · rw [if_pos ho, if_pos ho,
        jsOrStr_some_ne _ _ (extractBaseVariant_ne_empty o ho.1)]
    · rw [if_neg ho, if_neg ho, jsOrStr_none,
        if_neg (show ¬ 0 < n from by omega), if_pos h1]

/-- In the today branch, the code's variant equals the claimed one. -/
theorem badgeVariant_zero (n : Int) (ov : Option String) (h1 : ¬ 0 < n) (h2 : ¬ n < 0) :
    jsOrStr (ConfigurableList.badgeBaseVariant ov) "warning" =
      ConfigurableList.daysBadgeSpecVariant n ov := by
  unfold ConfigurableList.badgeBaseVariant ConfigurableList.daysBadgeSpecVariant
  cases ov with
  | none =>
    rw [jsOrStr_none, if_neg h1, if_neg h2]
  | some o =>
    dsimp only
    by_cases ho : o ≠ "" ∧ o ≠ "Auto"
    · rw [if_pos ho, if_pos ho,
        jsOrStr_some_ne _ _ (extractBaseVariant_ne_empty o ho.1)]
    · rw [if_neg ho, if_neg ho, jsOrStr_none, if_neg h1, if_neg h2]

/-- Membership in a JS insertion step. -/
theorem mem_jsInsert {α : Type} (cmp : α → α → ℚ) (x z : α) :
    ∀ l : List α, z ∈ ConfigurableList.jsInsert cmp x l ↔ z = x ∨ z ∈ l := by
  intro l
  induction l with
  | nil => simp [ConfigurableList.jsInsert]
  | cons y ys ih =>
    unfold ConfigurableList.jsInsert
    by_cases h : cmp x y > 0
    · rw [if_pos h]
      simp only [List.mem_cons, ih]
      tauto
    · rw [if_neg h]
      simp only [List.mem_cons]

/-- A JS insertion step permutes consing the element on. -/
theorem jsInsert_perm {α : Type} (cmp : α → α → ℚ) (x : α) :
    ∀ l : List α, (ConfigurableList.jsInsert cmp x l).Perm (x :: l) := by
  intro l
  induction l with
  | nil => exact List.Perm.refl _
  | cons y ys ih =>
    unfold ConfigurableList.jsInsert
    by_cases h : cmp x y > 0
    · rw [if_pos h]
      exact (ih.cons y).trans (List.Perm.swap x y ys)
    · rw [if_neg h]

/-- The modelled `Array.prototype.sort` permutes its input: the sorted
copy has exactly the input's elements, and the input itself — copied by
`[...rows]` in `sortRows` — is untouched. -/
theorem jsSort_perm {α : Type} (cmp : α → α → ℚ) :
    ∀ l : List α, (ConfigurableList.jsSort cmp l).Perm l := by
  intro l
  induction l with
  | nil => exact List.Perm.refl _
  | cons x xs ih =>
    exact (jsInsert_perm cmp x (ConfigurableList.jsSort cmp xs)).trans (ih.cons x)

/-- Inserting into a list that is pairwise consistent with the
comparator keeps it so.  `P` marks the values the comparator always
sends to the end (nulls), `Q` is the order it realises on the rest, and
`W` is a wellformedness bound on the elements involved. -/
theorem jsInsert_pairwise {α : Type} (cmp : α → α → ℚ) (P W : α → Prop)
    (Q : α → α → Prop)
    (hA1 : ∀ a b, W a → W b → P a → cmp a b > 0)
    (hA2 : ∀ a b, W a → W b → ¬ P a → P b → ¬ cmp a b > 0)
    (hA3 : ∀ a b, W a → W b → ¬ P a → ¬ P b → cmp a b > 0 → Q b a)
    (hA4 : ∀ a b, W a → W b → ¬ P a → ¬ P b → ¬ cmp a b > 0 → Q a b)
    (hA5 : ∀ a b c, W b → ¬ P a → ¬ P b → ¬ P c → Q a b → Q b c → Q a c)
    (x : α) (hWx : W x) :
    ∀ l : List α, (∀ a ∈ l, W a) →
      l.Pairwise (fun a b => (P a → P b) ∧ (¬ P a → ¬ P b → Q a b)) →
      (ConfigurableList.jsInsert cmp x l).Pairwise
        (fun a b => (P a → P b) ∧ (¬ P a → ¬ P b → Q a b)) := by
  intro l
  induction l with
  | nil =>
    intro _ _
    simp [ConfigurableList.jsInsert]
  | cons y ys ih =>
    intro hW hl
    rw [List.pairwise_cons] at hl
    obtain ⟨hy, hys⟩ := hl
    have hWy : W y := hW y (by simp)
    have hWys : ∀ a ∈ ys, W a := fun a ha => hW a (by simp [ha])
    unfold ConfigurableList.jsInsert
    by_cases h : cmp x y > 0
    · rw [if_pos h, List.pairwise_cons]
      refine ⟨?_, ih hWys hys⟩
      intro z hz
      rw [mem_jsInsert] at hz
      rcases hz with rfl | hz
      · constructor
        · intro hPy
          by_cases hPz : P z
          · exact hPz
          · exact absurd h (hA2 _ _ hWx hWy hPz hPy)
        · intro hPy hPz
          exact hA3 _ _ hWx hWy hPz hPy h
      · exact hy z hz
    · rw [if_neg h, List.pairwise_cons]
      refine ⟨?_, List.pairwise_cons.mpr ⟨hy, hys⟩⟩
      intro z hz
      rcases List.mem_cons.mp hz with rfl | hz
      · constructor
        · intro hPx
          exact absurd (hA1 _ _ hWx hWy hPx) h
        · intro hPx hPz
          exact hA4 _ _ hWx hWy hPx hPz h
      · have hRyz := hy z hz
        constructor
        · intro hPx
          exact absurd (hA1 _ _ hWx hWy hPx) h
        · intro hPx hPz
          by_cases hPy : P y
          · exact absurd (hRyz.1 hPy) hPz
          · exact hA5 x y z hWy hPx hPy hPz (hA4 x y hWx hWy hPx hPy h)
              (hRyz.2 hPy hPz)

/-- The modelled sort of a list of wellformed elements is pairwise
consistent: `P`-elements (nulls) only ever precede `P`-elements, and on
the rest the order `Q` holds. -/
theorem jsSort_pairwise {α : Type} (cmp : α → α → ℚ) (P W : α → Prop)
    (Q : α → α → Prop)
    (hA1 : ∀ a b, W a → W b → P a → cmp a b > 0)
    (hA2 : ∀ a b, W a → W b → ¬ P a → P b → ¬ cmp a b > 0)
    (hA3 : ∀ a b, W a → W b → ¬ P a → ¬ P b → cmp a b > 0 → Q b a)
    (hA4 : ∀ a b, W a → W b → ¬ P a → ¬ P b → ¬ cmp a b > 0 → Q a b)
    (hA5 : ∀ a b c, W b → ¬ P a → ¬ P b → ¬ P c → Q a b → Q b c → Q a c) :
    ∀ l : List α, (∀ a ∈ l, W a) →
      (ConfigurableList.jsSort cmp l).Pairwise
        (fun a b => (P a → P b) ∧ (¬ P a → ¬ P b → Q a b)) := by
  intro l
  induction l with
  | nil => exact fun _ => List.Pairwise.nil
  | cons x xs ih =>
    intro hW
    unfold ConfigurableList.jsSort
    refine jsInsert_pairwise cmp P W Q hA1 hA2 hA3 hA4 hA5 x (hW x (by simp))
      (ConfigurableList.jsSort cmp xs) ?_ (ih (fun a ha => hW a (by simp [ha])))
    intro a ha
    exact hW a (by simp [(jsSort_perm cmp xs).mem_iff.mp ha])

/-- A null first value compares as 1, for either direction. -/
theorem compareCellValues_null_left (bv : JVal) (ft d : String) :
    ConfigurableList.compareCellValues JVal.jnull bv ft d = 1 := by
  unfold ConfigurableList.compareCellValues
  rw [if_pos rfl]

/-- A null second value compares as -1, for either direction. -/
theorem compareCellValues_null_right (av : JVal) (ft d : String)
    (h : av ≠ JVal.jnull) :
    ConfigurableList.compareCellValues av JVal.jnull ft d = -1 := by
  unfold ConfigurableList.compareCellValues
  rw [if_neg h, if_pos rfl]

/-- Non-null values compare by `comparison`, negated unless ascending. -/
theorem compareCellValues_nonnull (av bv : JVal) (ft d : String)
    (ha : av ≠ JVal.jnull) (hb : bv ≠ JVal.jnull) :
    ConfigurableList.compareCellValues av bv ft d =
      if d = "asc" then ConfigurableList.cellComparison av bv ft
      else -(ConfigurableList.cellComparison av bv ft) := by
  unfold ConfigurableList.compareCellValues
  rw [if_neg ha, if_neg hb]

/-- The three numeric format types compare coerced numbers. -/
theorem cellComparison_numeric (av bv : JVal) (ft : String)
    (hft : ft = "Currency" ∨ ft = "Number" ∨ ft = "Percent") :
    ConfigurableList.cellComparison av bv ft = numOr0 av - numOr0 bv := by
  rcases hft with rfl | rfl | rfl <;> simp [ConfigurableList.cellComparison]

/-- The Date format type compares parsed timestamps. -/
theorem cellComparison_date (av bv : JVal) :
    ConfigurableList.cellComparison av bv "Date" =
      (match dateMs av, dateMs bv with
       | some x, some y => ((x - y : Int) : ℚ)
       | _, _ => 0) := by
  simp [ConfigurableList.cellComparison]

/-- The Text format type compares lower-cased strings. -/
theorem cellComparison_text (av bv : JVal) :
    ConfigurableList.cellComparison av bv "Text" =
      ConfigurableList.localeCmpQ (ConfigurableList.textKey av)
        (ConfigurableList.textKey bv) := by
  simp [ConfigurableList.cellComparison]

/-- The locale comparator is negative exactly on ascending pairs. -/
theorem localeCmpQ_neg_iff (a b : String) :
    ConfigurableList.localeCmpQ a b < 0 ↔ a < b := by
  unfold ConfigurableList.localeCmpQ
  rcases h : compare a b with _ | _ | _
  · rw [compare_lt_iff_lt] at h
    simp only []
    constructor
    · intro _
      exact h
    · intro _
      norm_num
  · rw [compare_eq_iff_eq] at h
    subst h
    simp
  · rw [compare_gt_iff_gt] at h
    simp only []
    constructor
    · intro hc
      norm_num at hc
    · intro hb
      exact absurd (lt_trans h hb) (lt_irrefl b)

/-- The locale comparator is positive exactly on descending pairs. -/
theorem localeCmpQ_pos_iff (a b : String) :
    ConfigurableList.localeCmpQ a b > 0 ↔ b < a := by
  unfold ConfigurableList.localeCmpQ
  rcases h : compare a b with _ | _ | _
  · rw [compare_lt_iff_lt] at h
    simp only []
    constructor
    · intro hc
      norm_num at hc
    · intro hb
      exact absurd (lt_trans h hb) (lt_irrefl a)
  · rw [compare_eq_iff_eq] at h
    subst h
    simp
  · rw [compare_gt_iff_gt] at h
    simp only []
    constructor
    · intro _
      exact h
    · intro _
      norm_num

/-- `updatePagination` never touches the filtered dataset. -/
theorem updatePagination_filteredRows (t : ConfigurableList.ListState) :
    (ConfigurableList.updatePagination t).filteredRows = t.filteredRows := by
  unfold ConfigurableList.updatePagination
  by_cases h : ¬ t.enablePagination = true
  · rw [if_pos h]
  · rw [if_neg h]

/-- `applyFilter` sorts the entire freshly filtered dataset when column
sorting is enabled and a sort column with a matching definition exists:
the filtered rows after the call are the sorted copy of the full
filtered dataset, before any pagination slicing. -/
theorem applyFilter_filteredRows (s : ConfigurableList.ListState) (k : String)
    (col : ConfigurableList.Column)
    (hen : s.enableColumnSorting = true)
    (hsc : s.sortColumn = some k) (hk : k ≠ "")
    (hfind : s.columns.find? (fun c => c.key == k) = some col) :
    (ConfigurableList.applyFilter s).filteredRows =
      ConfigurableList.sortRows (ConfigurableList.baseFilteredRows s) k
        s.sortDirection col.formatType := by
  unfold ConfigurableList.applyFilter
  rw [updatePagination_filteredRows]
  show (ConfigurableList.sortStep
      { s with filteredRows := ConfigurableList.baseFilteredRows s }).filteredRows = _
  unfold ConfigurableList.sortStep
  rw [if_pos ⟨hen, show strTruthy s.sortColumn = true by rw [hsc]; simp [strTruthy, hk]⟩]
  have hkey : jsOrStr s.sortColumn "" = k := by
    rw [hsc]
    exact jsOrStr_some_ne k "" hk
  rw [show ({ s with filteredRows := ConfigurableList.baseFilteredRows s} :
      ConfigurableList.ListState).sortColumn = some k from hsc]
  rw [show jsOrStr (some k) "" = k from jsOrStr_some_ne k "" hk]
  rw [show ({ s with filteredRows := ConfigurableList.baseFilteredRows s} :
      ConfigurableList.ListState).columns.find? (fun col => col.key == k) = some col
    from hfind]

/-- Rows with a null cell value end up after every non-null row, for
every direction and format type. -/
theorem sortRows_nullsLast (rows : List ConfigurableList.Row) (k d ft : String) :
    (ConfigurableList.sortRows rows k d ft).Pairwise (fun a b =>
      ConfigurableList.getCellValue a k = JVal.jnull →
        ConfigurableList.getCellValue b k = JVal.jnull) := by
  refine List.Pairwise.imp (fun hab => hab.1)
    (jsSort_pairwise _ (fun r => ConfigurableList.getCellValue r k = JVal.jnull)
      (fun _ => True) (fun _ _ => True) ?_ ?_ ?_ ?_ ?_ rows (fun _ _ => trivial))
  · intro a b _ _ hPa
    dsimp only
    rw [hPa, compareCellValues_null_left]
    norm_num
  · intro a b _ _ hPa hPb
    dsimp only
    rw [hPb, compareCellValues_null_right _ _ _ hPa]
    norm_num
  · intro a b _ _ _ _ _
    trivial
  · intro a b _ _ _ _ _
    trivial
  · intro a b c _ _ _ _ _ _
    trivial

/-- For the numeric format types, the sorted rows are in coerced-number
order among non-null values, ascending and descending. -/
theorem sortRows_sorted_numeric (rows : List ConfigurableList.Row) (k ft : String)
    (hft : ft = "Currency" ∨ ft = "Number" ∨ ft = "Percent") :
    ((ConfigurableList.sortRows rows k "asc" ft).Pairwise (fun a b =>
      ConfigurableList.getCellValue a k ≠ JVal.jnull →
      ConfigurableList.getCellValue b k ≠ JVal.jnull →
        numOr0 (ConfigurableList.getCellValue a k) ≤
          numOr0 (ConfigurableList.getCellValue b k))) ∧
    ((ConfigurableList.sortRows rows k "desc" ft).Pairwise (fun a b =>
      ConfigurableList.getCellValue a k ≠ JVal.jnull →
      ConfigurableList.getCellValue b k ≠ JVal.jnull →
        numOr0 (ConfigurableList.getCellValue b k) ≤
          numOr0 (ConfigurableList.getCellValue a k))) := by
  constructor
  · refine List.Pairwise.imp (fun hab => hab.2)
      (jsSort_pairwise _ (fun r => ConfigurableList.getCellValue r k = JVal.jnull)
        (fun _ => True)
        (fun a b => numOr0 (ConfigurableList.getCellValue a k) ≤
          numOr0 (ConfigurableList.getCellValue b k)) ?_ ?_ ?_ ?_ ?_ rows
        (fun _ _ => trivial))
    · intro a b _ _ hPa
      dsimp only
      rw [hPa, compareCellValues_null_left]
      norm_num
    · intro a b _ _ hPa hPb
      dsimp only
      rw [hPb, compareCellValues_null_right _ _ _ hPa]
      norm_num
    · intro a b _ _ hPa hPb h
      rw [compareCellValues_nonnull _ _ _ _ hPa hPb, if_pos rfl,
        cellComparison_numeric _ _ _ hft] at h
      linarith
    · intro a b _ _ hPa hPb h
      rw [compareCellValues_nonnull _ _ _ _ hPa hPb, if_pos rfl,
        cellComparison_numeric _ _ _ hft] at h
      linarith
    · intro a b c _ _ _ _ hab hbc
      exact le_trans hab hbc
  · refine List.Pairwise.imp (fun hab => hab.2)
      (jsSort_pairwise _ (fun r => ConfigurableList.getCellValue r k = JVal.jnull)
        (fun _ => True)
        (fun a b => numOr0 (ConfigurableList.getCellValue b k) ≤
          numOr0 (ConfigurableList.getCellValue a k)) ?_ ?_ ?_ ?_ ?_ rows
        (fun _ _ => trivial))
    · intro a b _ _ hPa
      dsimp only
      rw [hPa, compareCellValues_null_left]
      norm_num
    · intro a b _ _ hPa hPb
      dsimp only
      rw [hPb, compareCellValues_null_right _ _ _ hPa]
      norm_num
    · intro a b _ _ hPa hPb h
      rw [compareCellValues_nonnull _ _ _ _ hPa hPb, if_neg (by decide),
        cellComparison_numeric _ _ _ hft] at h
      linarith
    · intro a b _ _ hPa hPb h
      rw [compareCellValues_nonnull _ _ _ _ hPa hPb, if_neg (by decide),
        cellComparison_numeric _ _ _ hft] at h
      linarith
    · intro a b c _ _ _ _ hab hbc
      exact le_trans hbc hab

/-- For the Text format type, the sorted rows are in case-insensitive
lexicographic order among non-null values, ascending and descending. -/
theorem sortRows_sorted_text (rows : List ConfigurableList.Row) (k : String) :
    ((ConfigurableList.sortRows rows k "asc" "Text").Pairwise (fun a b =>
      ConfigurableList.getCellValue a k ≠ JVal.jnull →
      ConfigurableList.getCellValue b k ≠ JVal.jnull →
        ConfigurableList.textKey (ConfigurableList.getCellValue a k) ≤
          ConfigurableList.textKey (ConfigurableList.getCellValue b k))) ∧
    ((ConfigurableList.sortRows rows k "desc" "Text").Pairwise (fun a b =>
      ConfigurableList.getCellValue a k ≠ JVal.jnull →
      ConfigurableList.getCellValue b k ≠ JVal.jnull →
        ConfigurableList.textKey (ConfigurableList.getCellValue b k) ≤
          ConfigurableList.textKey (ConfigurableList.getCellValue a k))) := by
  constructor
  · refine List.Pairwise.imp (fun hab => hab.2)
      (jsSort_pairwise _ (fun r => ConfigurableList.getCellValue r k = JVal.jnull)
        (fun _ => True)
        (fun a b => ConfigurableList.textKey (ConfigurableList.getCellValue a k) ≤
          ConfigurableList.textKey (ConfigurableList.getCellValue b k))
        ?_ ?_ ?_ ?_ ?_ rows (fun _ _ => trivial))
    · intro a b _ _ hPa
      dsimp only
      rw [hPa, compareCellValues_null_left]
      norm_num
    · intro a b _ _ hPa hPb
      dsimp only
      rw [hPb, compareCellValues_null_right _ _ _ hPa]
      norm_num
    · intro a b _ _ hPa hPb h
      rw [compareCellValues_nonnull _ _ _ _ hPa hPb, if_pos rfl,
        cellComparison_text, localeCmpQ_pos_iff] at h
      exact le_of_lt h
    · intro a b _ _ hPa hPb h
      rw [compareCellValues_nonnull _ _ _ _ hPa hPb, if_pos rfl,
        cellComparison_text, localeCmpQ_pos_iff] at h
      exact le_of_not_lt h
    · intro a b c _ _ _ _ hab hbc
      exact le_trans hab hbc
  · refine List.Pairwise.imp (fun hab => hab.2)
      (jsSort_pairwise _ (fun r => ConfigurableList.getCellValue r k = JVal.jnull)
        (fun _ => True)
        (fun a b => ConfigurableList.textKey (ConfigurableList.getCellValue b k) ≤
          ConfigurableList.textKey (ConfigurableList.getCellValue a k))
        ?_ ?_ ?_ ?_ ?_ rows (fun _ _ => trivial))
    · intro a b _ _ hPa
      dsimp only
      rw [hPa, compareCellValues_null_left]
      norm_num
    · intro a b _ _ hPa hPb
      dsimp only
      rw [hPb, compareCellValues_null_right _ _ _ hPa]
      norm_num
    · intro a b _ _ hPa hPb h
      rw [compareCellValues_nonnull _ _ _ _ hPa hPb, if_neg (by decide),
        cellComparison_text] at h
      have hlt : ConfigurableList.localeCmpQ
          (ConfigurableList.textKey (ConfigurableList.getCellValue a k))
          (ConfigurableList.textKey (ConfigurableList.getCellValue b k)) < 0 := by
        linarith
      rw [localeCmpQ_neg_iff] at hlt
      exact le_of_lt hlt
    · intro a b _ _ hPa hPb h
      rw [compareCellValues_nonnull _ _ _ _ hPa hPb, if_neg (by decide),
        cellComparison_text] at h
      have hge : ¬ ConfigurableList.localeCmpQ
          (ConfigurableList.textKey (ConfigurableList.getCellValue a k))
          (ConfigurableList.textKey (ConfigurableList.getCellValue b k)) < 0 := by
        intro hc
        apply h
        linarith
      rw [localeCmpQ_neg_iff] at hge
      exact le_of_not_lt hge
    · intro a b c _ _ _ _ hab hbc
      exact le_trans hbc hab

/-- For the Date format type, if every non-null value in play parses,
the sorted rows are in timestamp order among non-null values, ascending
and descending. -/
theorem sortRows_sorted_date (rows : List ConfigurableList.Row) (k : String)
    (hw : ∀ r ∈ rows, ConfigurableList.getCellValue r k = JVal.jnull ∨
      (dateMs (ConfigurableList.getCellValue r k)).isSome = true) :
    ((ConfigurableList.sortRows rows k "asc" "Date").Pairwise (fun a b =>
      ConfigurableList.getCellValue a k ≠ JVal.jnull →
      ConfigurableList.getCellValue b k ≠ JVal.jnull →
      ∀ x y : Int, dateMs (ConfigurableList.getCellValue a k) = some x →
        dateMs (ConfigurableList.getCellValue b k) = some y → x ≤ y)) ∧
    ((ConfigurableList.sortRows rows k "desc" "Date").Pairwise (fun a b =>
      ConfigurableList.getCellValue a k ≠ JVal.jnull →
      ConfigurableList.getCellValue b k ≠ JVal.jnull →
      ∀ x y : Int, dateMs (ConfigurableList.getCellValue a k) = some x →
        dateMs (ConfigurableList.getCellValue b k) = some y → y ≤ x)) := by
  constructor
  · refine List.Pairwise.imp (fun hab => hab.2)
      (jsSort_pairwise _ (fun r => ConfigurableList.getCellValue r k = JVal.jnull)
        (fun r => ConfigurableList.getCellValue r k = JVal.jnull ∨
          (dateMs (ConfigurableList.getCellValue r k)).isSome = true)
        (fun a b => ∀ x y : Int,
          dateMs (ConfigurableList.getCellValue a k) = some x →
          dateMs (ConfigurableList.getCellValue b k) = some y → x ≤ y)
        ?_ ?_ ?_ ?_ ?_ rows hw)
    · intro a b _ _ hPa
      dsimp only
      rw [hPa, compareCellValues_null_left]
      norm_num
    · intro a b _ _ hPa hPb
      dsimp only
      rw [hPb, compareCellValues_null_right _ _ _ hPa]
      norm_num
    · intro a b hWa hWb hPa hPb h
      obtain ⟨x, hx⟩ := Option.isSome_iff_exists.mp (hWa.resolve_left hPa)
      obtain ⟨y, hy⟩ := Option.isSome_iff_exists.mp (hWb.resolve_left hPb)
      rw [compareCellValues_nonnull _ _ _ _ hPa hPb, if_pos rfl,
        cellComparison_date, hx, hy] at h
      dsimp only at h
      have hxy : (0 : Int) < x - y := Int.cast_pos.mp h
      intro u v hu hv
      have hu2 : u = y := Option.some.inj (hu.symm.trans hy)
      have hv2 : v = x := Option.some.inj (hv.symm.trans hx)
      omega
    · intro a b hWa hWb hPa hPb h
      obtain ⟨x, hx⟩ := Option.isSome_iff_exists.mp (hWa.resolve_left hPa)
      obtain ⟨y, hy⟩ := Option.isSome_iff_exists.mp (hWb.resolve_left hPb)
      rw [compareCellValues_nonnull _ _ _ _ hPa hPb, if_pos rfl,
        cellComparison_date, hx, hy] at h
      dsimp only at h
      have hxy : ((x - y : Int) : ℚ) ≤ 0 := le_of_not_lt h
      have hxy2 : (x - y : Int) ≤ 0 := by exact_mod_cast hxy
      intro u v hu hv
      have hu2 : u = x := Option.some.inj (hu.symm.trans hx)
      have hv2 : v = y := Option.some.inj (hv.symm.trans hy)
      omega
    · intro a b c hWb hPa hPb hPc hab hbc
      obtain ⟨m, hm⟩ := Option.isSome_iff_exists.mp (hWb.resolve_left hPb)
      intro u v hu hv
      exact le_trans (hab u m hu hm) (hbc m v hm hv)
  · refine List.Pairwise.imp (fun hab => hab.2)
      (jsSort_pairwise _ (fun r => ConfigurableList.getCellValue r k = JVal.jnull)
        (fun r => ConfigurableList.getCellValue r k = JVal.jnull ∨
          (dateMs (ConfigurableList.getCellValue r k)).isSome = true)
        (fun a b => ∀ x y : Int,
          dateMs (ConfigurableList.getCellValue a k) = some x →
          dateMs (ConfigurableList.getCellValue b k) = some y → y ≤ x)
        ?_ ?_ ?_ ?_ ?_ rows hw)
    · intro a b _ _ hPa
      dsimp only
      rw [hPa, compareCellValues_null_left]
      norm_num
    · intro a b _ _ hPa hPb
      dsimp only
      rw [hPb, compareCellValues_null_right _ _ _ hPa]
      norm_num
    · intro a b hWa hWb hPa hPb h
      obtain ⟨x, hx⟩ := Option.isSome_iff_exists.mp (hWa.resolve_left hPa)
      obtain ⟨y, hy⟩ := Option.isSome_iff_exists.mp (hWb.resolve_left hPb)
      rw [compareCellValues_nonnull _ _ _ _ hPa hPb, if_neg (by decide),
        cellComparison_date, hx, hy] at h
      dsimp only at h
      have hxy : ((x - y : Int) : ℚ) < 0 := by linarith
      have hxy2 : (x - y : Int) < 0 := by exact_mod_cast hxy
      intro u v hu hv
      have hu2 : u = y := Option.some.inj (hu.symm.trans hy)
      have hv2 : v = x := Option.some.inj (hv.symm.trans hx)
      omega
    · intro a b hWa hWb hPa hPb h
      obtain ⟨x, hx⟩ := Option.isSome_iff_exists.mp (hWa.resolve_left hPa)
      obtain ⟨y, hy⟩ := Option.isSome_iff_exists.mp (hWb.resolve_left hPb)
      rw [compareCellValues_nonnull _ _ _ _ hPa hPb, if_neg (by decide),
        cellComparison_date, hx, hy] at h
      dsimp only at h
      have hxy : (0 : ℚ) ≤ ((x - y : Int) : ℚ) := by
        by_contra hc
        exact h (by linarith)
      have hxy2 : (0 : Int) ≤ x - y := by exact_mod_cast hxy
      intro u v hu hv
      have hu2 : u = x := Option.some.inj (hu.symm.trans hx)
      have hv2 : v = y := Option.some.inj (hv.symm.trans hy)
      omega
    · intro a b c hWb hPa hPb hPc hab hbc
      obtain ⟨m, hm⟩ := Option.isSome_iff_exists.mp (hWb.resolve_left hPb)
      intro u v hu hv
      exact le_trans (hbc m v hm hv) (hab u m hu hm)

/-- C6 counterexample.  The numeric timestamp 0 (the epoch) parses to a
valid past date, yet `calculateDaysBadge` returns no badge for it: the
initial falsy-value guard swallows the value 0, although the claim
promises an overdue badge for every parseable past date. -/
theorem daysBadge_claim_counterexample :
    ConfigurableList.badgeDateValue (JVal.jnum 0) = some 0 ∧
    ConfigurableList.dayDiff 259200000 0 = -3 ∧
    ConfigurableList.calculateDaysBadge 259200000 (JVal.jnum 0) none = none := by
  refine ⟨?_, ?_, ?_⟩ <;> decide

/-- C6 (amended).  For every truthy, parseable date value, `diffDays` is
the whole-day difference between the value's date at midnight and today
at midnight, and the badge is exactly the claimed one — `<n>d Left`
with variant warning for 0 < n ≤ 3 and success for n > 3, `<n>d Over`
with variant error for n < 0, `Today` with variant warning for n = 0,
and a configured non-empty, non-`Auto` override replacing the computed
variant — while null or unparseable values yield no badge (and so do
falsy parseable values such as the timestamp 0). -/
theorem daysBadge_amended (now t : Int) (v : JVal) (ov : Option String)
    (htr : v.jsTruthy = true) (hp : ConfigurableList.badgeDateValue v = some t) :
    ConfigurableList.dayDiff now t = t.fdiv 86400000 - now.fdiv 86400000 ∧
    ConfigurableList.calculateDaysBadge now v ov =
      some (ConfigurableList.daysBadgeSpec (ConfigurableList.dayDiff now t) ov) ∧
    (∀ (now2 : Int) (v2 : JVal) (ov2 : Option String),
      ConfigurableList.badgeDateValue v2 = none →
      ConfigurableList.calculateDaysBadge now2 v2 ov2 = none) ∧
    (∀ (now2 : Int) (ov2 : Option String),
      ConfigurableList.calculateDaysBadge now2 JVal.jnull ov2 = none) := by
  refine ⟨?_, ?_, ?_, fun now2 ov2 => rfl⟩
  · unfold ConfigurableList.dayDiff
    rw [show (86400000 : Int) * (t.fdiv 86400000) - 86400000 * (now.fdiv 86400000) =
        86400000 * (t.fdiv 86400000 - now.fdiv 86400000) from by ring,
      Int.mul_fdiv_cancel_left _ (by norm_num)]
  · unfold ConfigurableList.calculateDaysBadge
    rw [if_neg (by simp [htr]), hp]
    dsimp only
    rcases lt_trichotomy (ConfigurableList.dayDiff now t) 0 with h1 | h1 | h1
    · rw [if_neg (by omega), if_pos h1, badgeVariant_neg _ ov h1]
      simp [ConfigurableList.mkBadge, ConfigurableList.daysBadgeSpec, h1,
        show ¬ (0 : Int) < ConfigurableList.dayDiff now t from by omega]
    · rw [if_neg (by omega), if_neg (by omega),
        badgeVariant_zero (ConfigurableList.dayDiff now t) ov (by omega) (by omega)]
      simp [ConfigurableList.mkBadge, ConfigurableList.daysBadgeSpec, h1]
    · rw [if_pos h1, badgeVariant_pos _ ov h1]
      simp [ConfigurableList.mkBadge, ConfigurableList.daysBadgeSpec, h1]
  · intro now2 v2 ov2 hnone
    unfold ConfigurableList.calculateDaysBadge
    by_cases htr2 : v2.jsTruthy = true
    · rw [if_neg (by simp [htr2]), hnone]
    · rw [if_pos (by simp [htr2])]

/-- C6 witness: four days ahead of the epoch, the date-only string
`1970-01-05` gets the claimed badge. -/
theorem daysBadge_amended_witness :
    (JVal.jstr "1970-01-05").jsTruthy = true ∧
    ConfigurableList.badgeDateValue (JVal.jstr "1970-01-05") = some 345600000 ∧
    ConfigurableList.calculateDaysBadge 0 (JVal.jstr "1970-01-05") none =
      some (ConfigurableList.daysBadgeSpec (ConfigurableList.dayDiff 0 345600000) none) :=
  ⟨by decide, by decide,
    (daysBadge_amended 0 345600000 (JVal.jstr "1970-01-05") none (by decide)
      (by decide)).2.1⟩

/-- C5 counterexample.  With Date formatting, an unparseable value
compares equal to everything, so parseable values on either side of it
stay out of date order: the rows with timestamps 5 and 1 keep their
original descending order under an ascending sort. -/
theorem sorting_claim_counterexample :
    ConfigurableList.sortRows
        [⟨"a", [⟨"d", JVal.jnum 5⟩]⟩, ⟨"a", [⟨"d", JVal.jstr "x"⟩]⟩,
         ⟨"a", [⟨"d", JVal.jnum 1⟩]⟩] "d" "asc" "Date" =
      [⟨"a", [⟨"d", JVal.jnum 5⟩]⟩, ⟨"a", [⟨"d", JVal.jstr "x"⟩]⟩,
       ⟨"a", [⟨"d", JVal.jnum 1⟩]⟩] ∧
    dateMs (ConfigurableList.getCellValue ⟨"a", [⟨"d", JVal.jnum 5⟩]⟩ "d") = some 5 ∧
    dateMs (ConfigurableList.getCellValue ⟨"a", [⟨"d", JVal.jnum 1⟩]⟩ "d") = some 1 ∧
    dateMs (ConfigurableList.getCellValue ⟨"a", [⟨"d", JVal.jstr "x"⟩]⟩ "d") = none := by
  refine ⟨?_, ?_, ?_, ?_⟩ <;> decide

/-- C5 (amended).  When column sorting is enabled and a sort column with
a matching column definition is selected, `applyFilter` replaces the
entire filtered dataset — before any pagination slicing — by its sorted
copy; the modelled sort permutes its input (the `[...rows]` copy leaves
the original untouched); rows with a null value sort to the end for
every direction and format type; among non-null values the sorted order
is by coerced number for Currency, Number and Percent, case-insensitive
lexicographic for Text, and by parsed timestamp for Date provided every
non-null value parses, ascending and descending. -/
theorem sorting_amended (s : ConfigurableList.ListState) (k : String)
    (col : ConfigurableList.Column)
    (hen : s.enableColumnSorting = true)
    (hsc : s.sortColumn = some k) (hk : k ≠ "")
    (hfind : s.columns.find? (fun c => c.key == k) = some col) :
    (ConfigurableList.applyFilter s).filteredRows =
      ConfigurableList.sortRows (ConfigurableList.baseFilteredRows s) k
        s.sortDirection col.formatType ∧
    (∀ (rows : List ConfigurableList.Row) (key d ft : String),
      (ConfigurableList.sortRows rows key d ft).Perm rows) ∧
    (∀ (rows : List ConfigurableList.Row) (key d ft : String),
      (ConfigurableList.sortRows rows key d ft).Pairwise (fun a b =>
        ConfigurableList.getCellValue a key = JVal.jnull →
          ConfigurableList.getCellValue b key = JVal.jnull)) ∧
    (∀ (rows : List ConfigurableList.Row) (key ft : String),
      ft = "Currency" ∨ ft = "Number" ∨ ft = "Percent" →
      ((ConfigurableList.sortRows rows key "asc" ft).Pairwise (fun a b =>
        ConfigurableList.getCellValue a key ≠ JVal.jnull →
        ConfigurableList.getCellValue b key ≠ JVal.jnull →
          numOr0 (ConfigurableList.getCellValue a key) ≤
            numOr0 (ConfigurableList.getCellValue b key))) ∧
      ((ConfigurableList.sortRows rows key "desc" ft).Pairwise (fun a b =>
        ConfigurableList.getCellValue a key ≠ JVal.jnull →
        ConfigurableList.getCellValue b key ≠ JVal.jnull →
          numOr0 (ConfigurableList.getCellValue b key) ≤
            numOr0 (ConfigurableList.getCellValue a key)))) ∧
    (∀ (rows : List ConfigurableList.Row) (key : String),
      ((ConfigurableList.sortRows rows key "asc" "Text").Pairwise (fun a b =>
        ConfigurableList.getCellValue a key ≠ JVal.jnull →
        ConfigurableList.getCellValue b key ≠ JVal.jnull →
          ConfigurableList.textKey (ConfigurableList.getCellValue a key) ≤
            ConfigurableList.textKey (ConfigurableList.getCellValue b key))) ∧
      ((ConfigurableList.sortRows rows key "desc" "Text").Pairwise (fun a b =>
        ConfigurableList.getCellValue a key ≠ JVal.jnull →
        ConfigurableList.getCellValue b key ≠ JVal.jnull →
          ConfigurableList.textKey (ConfigurableList.getCellValue b key) ≤
            ConfigurableList.textKey (ConfigurableList.getCellValue a key)))) ∧
    (∀ (rows : List ConfigurableList.Row) (key : String),
      (∀ r ∈ rows, ConfigurableList.getCellValue r key = JVal.jnull ∨
        (dateMs (ConfigurableList.getCellValue r key)).isSome = true) →
      ((ConfigurableList.sortRows rows key "asc" "Date").Pairwise (fun a b =>
        ConfigurableList.getCellValue a key ≠ JVal.jnull →
        ConfigurableList.getCellValue b key ≠ JVal.jnull →
        ∀ x y : Int, dateMs (ConfigurableList.getCellValue a key) = some x →
          dateMs (ConfigurableList.getCellValue b key) = some y → x ≤ y)) ∧
      ((ConfigurableList.sortRows rows key "desc" "Date").Pairwise (fun a b =>
        ConfigurableList.getCellValue a key ≠ JVal.jnull →
        ConfigurableList.getCellValue b key ≠ JVal.jnull →
        ∀ x y : Int, dateMs (ConfigurableList.getCellValue a key) = some x →
          dateMs (ConfigurableList.getCellValue b key) = some y → y ≤ x))) :=
  ⟨applyFilter_filteredRows s k col hen hsc hk hfind,
   fun rows key d ft => jsSort_perm (fun a b =>
     ConfigurableList.compareCellValues (ConfigurableList.getCellValue a key)
       (ConfigurableList.getCellValue b key) ft d) rows,
   fun rows key d ft => sortRows_nullsLast rows key d ft,
   fun rows key ft hft => sortRows_sorted_numeric rows key ft hft,
   fun rows key => sortRows_sorted_text rows key,
   fun rows key hw => sortRows_sorted_date rows key hw⟩

/-- C5 witness: on a two-row state sorted ascending by a Number column,
`applyFilter` replaces the filtered dataset by the sorted copy of the
full dataset. -/
theorem sorting_amended_witness :
    (ConfigurableList.applyFilter
      { rows := [⟨"x", [⟨"amt", JVal.jnum 2⟩]⟩, ⟨"x", [⟨"amt", JVal.jnum 1⟩]⟩],
        filteredRows := [], activeFilter := none,
        columns := [⟨"amt", "Number"⟩], currentPage := 1, recordsPerPage := 10,
        enablePagination := false, totalPages := 1, sortColumn := some "amt",
        sortDirection := "asc", enableColumnSorting := true }).filteredRows =
      ConfigurableList.sortRows (ConfigurableList.baseFilteredRows
        { rows := [⟨"x", [⟨"amt", JVal.jnum 2⟩]⟩, ⟨"x", [⟨"amt", JVal.jnum 1⟩]⟩],
          filteredRows := [], activeFilter := none,
          columns := [⟨"amt", "Number"⟩], currentPage := 1, recordsPerPage := 10,
          enablePagination := false, totalPages := 1, sortColumn := some "amt",
          sortDirection := "asc", enableColumnSorting := true })
        "amt" "asc" "Number" :=
  (sorting_amended
    { rows := [⟨"x", [⟨"amt", JVal.jnum 2⟩]⟩, ⟨"x", [⟨"amt", JVal.jnum 1⟩]⟩],
      filteredRows := [], activeFilter := none,
      columns := [⟨"amt", "Number"⟩], currentPage := 1, recordsPerPage := 10,
      enablePagination := false, totalPages := 1, sortColumn := some "amt",
      sortDirection := "asc", enableColumnSorting := true }
    "amt" ⟨"amt", "Number"⟩ rfl rfl (by decide) (by decide)).1

end Dashboard
